import Mathlib

/-!
Verification of the FSL adapter layer (`src/nipype/interfaces/fsl.py`).

The development shallowly embeds the option-map engine
(`FSLCommand._parse_inputs`), the per-adapter command assemblers, and the
per-adapter output predictors/verifiers (`aggregate_outputs`) of the five
adapters Bet, Fast, Flirt, McFlirt and Fnirt.

Modelling conventions:
* Python values that can appear as parameter values are modelled by `PyVal`
  (booleans, integers, strings, lists).  Numeric parameter values are
  modelled as integers; on integer inputs Python's `%`-formatting of
  `%d`, `%f`, `%.Nf` and `%s` is reproduced exactly.
* `None`/unset parameters are modelled by `Option`; Python truthiness of
  strings and values is modelled by `truthyS`/`pyTruthy`.
* The filesystem is a list of existing paths; `glob` is modelled as literal
  matching (the patterns produced by the adapters contain no glob
  metacharacters for the inputs in scope).
* Exceptions (`AttributeError`, `TypeError`, `IOError`, `AssertionError`,
  `UnboundLocalError`) are modelled with `Except PyErr`.
* The external process runner is an abstract function from the assembled
  command line to a return code.
* The source is Python 2: iteration order over a `Bunch`'s dictionary is
  unspecified there; the model fixes the `Bunch` construction order.
-/

namespace Fsl

/-- A Python value as used for adapter parameters: booleans, integers
(standing for the numeric values), strings, and lists. -/
inductive PyVal where
  | bool (b : Bool)
  | int (n : Int)
  | str (s : String)
  | list (xs : List PyVal)

mutual

/-- Python `str()` of a value (element renderings of nested lists are
simplified: string elements are rendered without quotes). -/
def pyStr : PyVal → String
  | .bool b => if b then "True" else "False"
  | .int n => toString n
  | .str s => s
  | .list xs => "[" ++ pyStrList xs ++ "]"

/-- Comma-joined rendering of list elements. -/
def pyStrList : List PyVal → String
  | [] => ""
  | [v] => pyStr v
  | v :: vs => pyStr v ++ ", " ++ pyStrList vs

end

/-- Python truthiness of a value. -/
def pyTruthy : PyVal → Bool
  | .bool b => b
  | .int n => n != 0
  | .str s => !s.isEmpty
  | .list xs => !xs.isEmpty

/-- Python truthiness of an optional value (`None` is falsy). -/
def pyTruthyO : Option PyVal → Bool
  | none => false
  | some v => pyTruthy v

/-- Python truthiness of an optional string (`None` and `''` are falsy). -/
def truthyS : Option String → Bool
  | none => false
  | some s => !s.isEmpty

/-- A conversion specifier in a `%`-format string: `%d`, `%f`/`%.Nf`
(with precision), `%s`. -/
inductive Conv where
  | cd
  | cf (prec : Nat)
  | cs

/-- Tokenize a format string into literal characters and conversion
specifiers.  Only the specifier forms occurring in the adapters' option
maps are recognised (`%d`, `%s`, `%f`, `%.Nf` with one precision digit). -/
def tokenizeFmt : List Char → Option (List (Sum Char Conv))
  | [] => some []
  | '%' :: 'd' :: rest => (tokenizeFmt rest).map (fun t => Sum.inr Conv.cd :: t)
  | '%' :: 's' :: rest => (tokenizeFmt rest).map (fun t => Sum.inr Conv.cs :: t)
  | '%' :: 'f' :: rest => (tokenizeFmt rest).map (fun t => Sum.inr (Conv.cf 6) :: t)
  | '%' :: '.' :: d :: 'f' :: rest =>
      if d.isDigit then
        (tokenizeFmt rest).map (fun t => Sum.inr (Conv.cf (d.toNat - 48)) :: t)
      else none
  | '%' :: _ => none
  | c :: rest => (tokenizeFmt rest).map (fun t => Sum.inl c :: t)

/-- Number of conversion specifiers in a token list. -/
def convCount (toks : List (Sum Char Conv)) : Nat :=
  toks.countP (fun t => match t with | Sum.inr _ => true | Sum.inl _ => false)

/-- The arity of a format string: its number of placeholders. -/
def numConvs (fmt : String) : Nat :=
  match tokenizeFmt fmt.toList with
  | some toks => convCount toks
  | none => 0

/-- `argstr.find('%') == -1` in the source: whether the format string
contains a `%`. -/
def hasPercent (fmt : String) : Bool := fmt.toList.contains '%'

/-- Render one conversion against one value, as Python `%` does on the
modelled value types (`None` result = `TypeError`).  On integers,
`%d` gives the decimal numeral, `%f`/`%.Nf` the numeral with `N` zero
decimals (Python prints integer-valued floats this way), `%s` the `str()`
rendering. -/
def renderConv : Conv → PyVal → Option String
  | Conv.cd, .int n => some (toString n)
  | Conv.cd, .bool b => some (if b then "1" else "0")
  | Conv.cd, _ => none
  | Conv.cf p, .int n =>
      some (toString n ++ (if p = 0 then "" else "." ++ String.mk (List.replicate p '0')))
  | Conv.cf p, .bool b =>
      some ((if b then "1" else "0") ++ (if p = 0 then "" else "." ++ String.mk (List.replicate p '0')))
  | Conv.cf _, _ => none
  | Conv.cs, v => some (pyStr v)

/-- Format a tokenized format string against an argument tuple: Python's
`fmt % args`.  Too few or too many arguments, or a conversion/type
mismatch, is a `TypeError` (`none`). -/
def pyFormatToks : List (Sum Char Conv) → List PyVal → Option String
  | [], [] => some ""
  | [], _ :: _ => none
  | Sum.inl c :: rest, args =>
      (pyFormatToks rest args).map (fun s => c.toString ++ s)
  | Sum.inr _ :: _, [] => none
  | Sum.inr cv :: rest, a :: args =>
      match renderConv cv a, pyFormatToks rest args with
      | some r, some s => some (r ++ s)
      | _, _ => none

/-- Python's `fmt % tuple(args)`. -/
def pyFormat (fmt : String) (args : List PyVal) : Option String :=
  match tokenizeFmt fmt.toList with
  | some toks => pyFormatToks toks args
  | none => none

/-- A reported (non-fatal) schema violation of the option map engine:
a warned-and-dropped parameter. -/
inductive Violation where
  | typeErr (opt : String)
  | unsupported (opt : String)

/-- Tokens emitted for a boolean-flag option (format string without `%`):
`True` yields the flag token, anything else yields nothing. -/
def flagTokens (argstr : String) : PyVal → List String
  | .bool true => [argstr]
  | _ => []

/-- Violations reported for a boolean-flag option: any value other than
`True`/`False` is a warned `TypeError`. -/
def flagViols (opt : String) : PyVal → List Violation
  | .bool _ => []
  | _ => [Violation.typeErr opt]

/-- One step of `FSLCommand._parse_inputs`' loop body for a single
assigned option (after the `skip` and `'args'` tests): look the option up
in `opt_map` and format it.  A missing entry is the `KeyError` branch
(warned, dropped); a format string without `%` is the boolean-flag branch;
a list value is formatted against the tuple of its elements, any other
value directly; a formatting `TypeError` is warned and the option
dropped. -/
def formatOne (om : List (String × String)) (opt : String) (value : PyVal) :
    List String × List Violation :=
  match om.lookup opt with
  | none => ([], [Violation.unsupported opt])
  | some argstr =>
    if hasPercent argstr then
      match value with
      | .list xs =>
          match pyFormat argstr xs with
          | some tok => ([tok], [])
          | none => ([], [Violation.typeErr opt])
      | v =>
          match pyFormat argstr [v] with
          | some tok => ([tok], [])
          | none => ([], [Violation.typeErr opt])
    else
      (flagTokens argstr value, flagViols opt value)

/-- Tokens contributed by the raw-passthrough `'args'` parameter:
`allargs.extend(value)`.  A list extends element-wise, a string extends
character-wise (Python iterates the string); extending with a non-iterable
raises an uncaught `TypeError` in the source — that case contributes no
tokens here and is unreachable through the adapters' schemas, none of
which defines an `args` parameter. -/
def argsTokens : PyVal → List String
  | .list xs => xs.map pyStr
  | .str s => s.toList.map (fun c => c.toString)
  | _ => []

/-- The loop body of `FSLCommand._parse_inputs` for one assigned
`(option, value)` pair. -/
def parseOne (om : List (String × String)) (skip : List String)
    (p : String × PyVal) : List String × List Violation :=
  if p.1 ∈ skip then ([], [])
  else if p.1 = "args" then (argsTokens p.2, [])
  else formatOne om p.1 p.2

/-- `FSLCommand._parse_inputs`: format every assigned option in iteration
order, collecting the emitted command-line tokens and the warned
violations.  The input list holds exactly the assigned (non-`None`)
parameters. -/
def parse_inputs (om : List (String × String)) (skip : List String)
    (inputs : List (String × PyVal)) : List String × List Violation :=
  ((inputs.map (fun p => (parseOne om skip p).1)).flatten,
   (inputs.map (fun p => (parseOne om skip p).2)).flatten)

/-! ### Path and filesystem utilities (Python standard library) -/

/-- `os.path.split`: split a path at the last `/`; the head keeps no
trailing slashes unless it consists only of slashes. -/
def ospath_split (p : String) : String × String :=
  let rev := p.toList.reverse
  let revTail := rev.takeWhile (fun c => c ≠ '/')
  let revHead := rev.dropWhile (fun c => c ≠ '/')
  let tail := String.mk revTail.reverse
  let headAll := revHead.reverse
  if headAll.isEmpty then ("", tail)
  else
    let stripped := (headAll.reverse.dropWhile (fun c => c = '/')).reverse
    (if stripped.isEmpty then String.mk headAll else String.mk stripped, tail)

/-- Index of the last occurrence of `c` in `cs`, if any. -/
def rfindIdx (cs : List Char) (c : Char) : Option Nat :=
  match (cs.reverse.findIdx? (fun x => x = c)) with
  | some j => some (cs.length - 1 - j)
  | none => none

/-- `os.path.splitext`: split off the extension at the last `.` of the
basename, unless every character of the basename before that dot is
itself a dot (leading dots never start an extension). -/
def ospath_splitext (p : String) : String × String :=
  let cs := p.toList
  let si := match rfindIdx cs '/' with
    | some i => i + 1
    | none => 0
  match rfindIdx cs '.' with
  | none => (p, "")
  | some di =>
    if si ≤ di ∧ ((cs.drop si).take (di - si)).any (fun c => c ≠ '.') then
      (String.mk (cs.take di), String.mk (cs.drop di))
    else (p, "")

/-- `os.path.join` on two components (POSIX rules: an absolute second
component wins; otherwise a separator is added unless the first
component is empty or already ends in one). -/
def ospath_join (a b : String) : String :=
  if b.toList.head? = some '/' then b
  else if a = "" ∨ a.toList.getLast? = some '/' then a ++ b
  else a ++ "/" ++ b

/-- Modelled from the spec: `fname_presuffix` from
`nipype.utils.filemanip` is imported by the source but is not under
`src/`.  Per the spec it produces "the input base name with a fixed
suffix inserted before the extension", optionally relocated to a new
directory (`newpath`) when one is given. -/
def fname_presuffix (fname : String) (suffix : String)
    (newpath : Option String) : String :=
  let ps := ospath_split fname
  let se := ospath_splitext ps.2
  let pth := match newpath with
    | some np => np
    | none => ps.1
  ospath_join pth (se.1 ++ suffix ++ se.2)

/-- The filesystem is the list of existing paths; `glob(pattern)` is
modelled as literal matching (no pattern in scope contains glob
metacharacters). -/
def glob (pat : String) (fs : List String) : List String :=
  fs.filter (fun p => p = pat)

/-- A raised Python exception, as the adapters can produce them. -/
inductive PyErr where
  | attributeError (msg : String)
  | typeError (msg : String)
  | assertionError (msg : String)
  | ioMissingOutput (outfile outtype : String)
  | ioNotGenerated (filename : String)
  | ioFileOfType (file item : String)
  | unboundLocalError (name : String)

/-- `glob` applied to an optional path: the source reaches `glob(None)`
in places, which raises `TypeError` inside the standard library. -/
def globOpt : Option String → List String → Except PyErr (List String)
  | none, _ => .error (.typeError "glob: NoneType")
  | some p, fs => .ok (glob p fs)

/-- Python `list.insert`: insert at position `i`, clamped to the list
length. -/
def pyInsert (i : Nat) (x : α) (xs : List α) : List α :=
  xs.take i ++ [x] ++ xs.drop i

/-- The pair list contributed by one optional parameter of a `Bunch`:
nothing when unset. -/
def optPair (k : String) (v : Option PyVal) : List (String × PyVal) :=
  match v with
  | none => []
  | some x => [(k, x)]

/-! ### Option maps (the `opt_map` tables of the five adapters) -/

/-- `Bet.opt_map`. -/
def bet_opt_map : List (String × String) :=
  [("outline", "-o"),
   ("mask", "-m"),
   ("skull", "-s"),
   ("nooutput", "-n"),
   ("frac", "-f %.2f"),
   ("vertical_gradient", "-g %.2f"),
   ("radius", "-r %d"),
   ("center", "-c %d %d %d"),
   ("threshold", "-t"),
   ("mesh", "-e"),
   ("verbose", "-v"),
   ("flags", "%s")]

/-- `Fast.opt_map`. -/
def fast_opt_map : List (String × String) :=
  [("number_classes", "-n %d"),
   ("bias_iters", "-I %d"),
   ("bias_lowpass", "-l %d"),
   ("img_type", "-t %d"),
   ("init_seg_smooth", "-f %.3f"),
   ("segments", "-g"),
   ("init_transform", "-a %s"),
   ("other_priors", "-A %s %s %s"),
   ("nopve", "--nopve"),
   ("output_biasfield", "-b"),
   ("output_biascorrected", "-B"),
   ("nobias", "-N"),
   ("n_inputimages", "-S %d"),
   ("out_basename", "-o %s"),
   ("use_priors", "-P"),
   ("segment_iters", "-W %d"),
   ("mixel_smooth", "-R %.2f"),
   ("iters_afterbias", "-O %d"),
   ("hyper", "-H %.2f"),
   ("verbose", "-v"),
   ("manualseg", "-s %s"),
   ("probability_maps", "-p")]

/-- `Flirt.opt_map` (including the source's `-minsamplig` typo). -/
def flirt_opt_map : List (String × String) :=
  [("datatype", "-datatype %d "),
   ("cost", "-cost %s"),
   ("searchcost", "-searchcost %s"),
   ("usesqform", "-usesqform"),
   ("displayinit", "-displayinit"),
   ("anglerep", "-anglerep %s"),
   ("interp", "-interp"),
   ("sincwidth", "-sincwidth %d"),
   ("sincwindow", "-sincwindow %s"),
   ("bins", "-bins %d"),
   ("dof", "-dof %d"),
   ("noresample", "-noresample"),
   ("forcescaling", "-forcescaling"),
   ("minsampling", "-minsamplig %f"),
   ("paddingsize", "-paddingsize %d"),
   ("searchrx", "-searchrx %d %d"),
   ("searchry", "-searchry %d %d"),
   ("searchrz", "-searchrz %d %d"),
   ("nosearch", "-nosearch"),
   ("coarsesearch", "-coarsesearch %d"),
   ("finesearch", "-finesearch %d"),
   ("refweight", "-refweight %s"),
   ("inweight", "-inweight %s"),
   ("noclamp", "-noclamp"),
   ("noresampblur", "-noresampblur"),
   ("rigid2D", "-2D"),
   ("verbose", "-v %d"),
   ("flags", "%s")]

/-- `McFlirt.opt_map`. -/
def mcflirt_opt_map : List (String × String) :=
  [("outfile", "-out %s"),
   ("cost", "-cost %s"),
   ("bins", "-bins %d"),
   ("dof", "-dof %d"),
   ("refvol", "-refvol %d"),
   ("scaling", "-scaling %.2f"),
   ("smooth", "-smooth %.2f"),
   ("rotation", "-rotation %d"),
   ("verbose", "-verbose"),
   ("stages", "-stages %d"),
   ("init", "-init %s"),
   ("usegradient", "-gdt"),
   ("usecontour", "-edge"),
   ("meanvol", "-meanvol"),
   ("statsimgs", "-stats"),
   ("savemats", "-mats"),
   ("saveplots", "-plots"),
   ("report", "-report")]

/-- `Fnirt.opt_map` (the pristine class-level table, before any
`update_optmap` rewriting). -/
def fnirt_opt_map : List (String × String) :=
  [("affine", "--aff %s"),
   ("initwarp", "--inwarp %s"),
   ("initintensity", "--intin %s"),
   ("configfile", "--config %s"),
   ("referencemask", "--refmask %s"),
   ("imagemask", "--inmask %s"),
   ("fieldcoeff_file", "--cout %s"),
   ("outimage", "--iout %s"),
   ("fieldfile", "--fout %s"),
   ("jacobianfile", "--jout %s"),
   ("reffile", "--refout %s"),
   ("intensityfile", "--intout %s"),
   ("logfile", "--logout %s"),
   ("verbose", "--verbose"),
   ("sub_sampling", "--subsamp %d"),
   ("max_iter", "--miter %f"),
   ("referencefwhm", "--reffwhm %f"),
   ("imgfwhm", "--infwhm %f"),
   ("lambdas", "--lambda %f"),
   ("estintensity", "--estint %f"),
   ("applyrefmask", "--applyrefmask %f"),
   ("applyimgmask", "--applyinmask %f"),
   ("flags", "%s")]

/-- The option maps of the five adapters. -/
def allOptMaps : List (List (String × String)) :=
  [bet_opt_map, fast_opt_map, flirt_opt_map, mcflirt_opt_map, fnirt_opt_map]

/-! ### Bet (skull stripping) -/

/-- The `Bunch` schema of `Bet._populate_inputs`, plus the `cwd` key read
with a default by `self.inputs.get('cwd', pth)` (`none` models the key
being absent, as it is unless a caller injects it). -/
structure BetInputs where
  infile : Option String
  outfile : Option String
  outline : Option PyVal
  mask : Option PyVal
  skull : Option PyVal
  nooutput : Option PyVal
  frac : Option PyVal
  vertical_gradient : Option PyVal
  radius : Option PyVal
  center : Option PyVal
  threshold : Option PyVal
  mesh : Option PyVal
  verbose : Option PyVal
  flags : Option PyVal
  cwd : Option String

/-- `Bet()`'s freshly populated inputs: everything unset. -/
def betDefaults : BetInputs :=
  ⟨none, none, none, none, none, none, none, none, none, none, none, none,
   none, none, none⟩

/-- The generic (non-file) assigned parameters of a `BetInputs`, in the
`Bunch` construction order. -/
def betRestPairs (b : BetInputs) : List (String × PyVal) :=
  optPair "outline" b.outline ++ optPair "mask" b.mask ++
  optPair "skull" b.skull ++ optPair "nooutput" b.nooutput ++
  optPair "frac" b.frac ++ optPair "vertical_gradient" b.vertical_gradient ++
  optPair "radius" b.radius ++ optPair "center" b.center ++
  optPair "threshold" b.threshold ++ optPair "mesh" b.mesh ++
  optPair "verbose" b.verbose ++ optPair "flags" b.flags

/-- All assigned parameters of a `BetInputs`, in `Bunch` construction
order. -/
def betPairs (b : BetInputs) : List (String × PyVal) :=
  optPair "infile" (b.infile.map PyVal.str) ++
  optPair "outfile" (b.outfile.map PyVal.str) ++ betRestPairs b

/-- `Bet._parse_inputs`: the generic tokens with `infile`/`outfile`
skipped; an assigned `infile` is inserted at position 0 and, when
`outfile` is unset, a derived output name (`infile` with suffix `_bet`,
relocated to `cwd` or the input's directory) is written back into the
inputs; the (possibly just derived) `outfile` is inserted at position 1.
Returns the argument list together with the (possibly mutated)
inputs. -/
def bet_parse_inputs (b : BetInputs) : List String × BetInputs :=
  let allargs := (parse_inputs bet_opt_map ["infile", "outfile"] (betPairs b)).1
  if truthyS b.infile then
    let allargs := pyInsert 0 (b.infile.getD "") allargs
    let b' :=
      if truthyS b.outfile then b
      else
        let ps := ospath_split (b.infile.getD "")
        let newpath := b.cwd.getD ps.1
        { b with outfile := some (fname_presuffix ps.2 "_bet" (some newpath)) }
    if truthyS b'.outfile then (pyInsert 1 (b'.outfile.getD "") allargs, b')
    else (allargs, b')
  else
    if truthyS b.outfile then (pyInsert 1 (b.outfile.getD "") allargs, b)
    else (allargs, b)

/-- The outputs `Bunch` of `Bet.aggregate_outputs`. -/
structure BetOutputs where
  outfile : Option String
  maskfile : Option String

/-- `Bet.aggregate_outputs`: recompute the output path (the explicit
`outfile` or the `_bet`-suffixed input name), assert it matches exactly
one file, then look for a `_mask`-suffixed companion whose absence is not
an error. -/
def bet_aggregate_outputs (b : BetInputs) (fs : List String) :
    Except PyErr BetOutputs := do
  let outfile ←
    if truthyS b.outfile then pure (b.outfile.getD "")
    else
      match b.infile with
      | none => throw (.attributeError "rfind")
      | some inf =>
        let ps := ospath_split inf
        pure (ospath_join (b.cwd.getD ps.1) (fname_presuffix ps.2 "_bet" none))
  if (glob outfile fs).length = 1 then
    let ms := glob (fname_presuffix outfile "_mask" none) fs
    return ⟨some outfile, ms.head?⟩
  else
    throw (.assertionError outfile)

/-- `Bet.run`: merge the call's `infile`/`outfile` arguments into the
inputs, raise if no input file is set, then build the command line,
invoke the runner, and on a zero return code aggregate the outputs.
The runner maps the assembled command line to a return code. -/
def bet_run (b : BetInputs) (infile outfile : Option String)
    (runner : String → Int) (fs : List String) :
    Except PyErr (Int × Option BetOutputs × BetInputs) := do
  let b := if truthyS infile then { b with infile := infile } else b
  if ¬ truthyS b.infile then
    throw (.attributeError "Bet requires an input file")
  else
    let b := if truthyS outfile then { b with outfile := outfile } else b
    let pr := bet_parse_inputs b
    let rc := runner (String.intercalate " " ("bet" :: pr.1))
    if rc = 0 then do
      let outs ← bet_aggregate_outputs pr.2 fs
      return (rc, some outs, pr.2)
    else
      return (rc, none, pr.2)

/-! ### Fast (segmentation) -/

/-- The `Bunch` schema of `Fast._populate_inputs`. -/
structure FastInputs where
  infiles : Option PyVal
  number_classes : Option PyVal
  bias_iters : Option PyVal
  bias_lowpass : Option PyVal
  img_type : Option PyVal
  init_seg_smooth : Option PyVal
  segments : Option PyVal
  init_transform : Option PyVal
  other_priors : Option PyVal
  nopve : Option PyVal
  output_biasfield : Option PyVal
  output_biascorrected : Option PyVal
  nobias : Option PyVal
  n_inputimages : Option PyVal
  out_basename : Option PyVal
  use_priors : Option PyVal
  segment_iters : Option PyVal
  mixel_smooth : Option PyVal
  iters_afterbias : Option PyVal
  hyper : Option PyVal
  verbose : Option PyVal
  manualseg : Option PyVal
  probability_maps : Option PyVal
  flags : Option PyVal

/-- `Fast()`'s freshly populated inputs: everything unset. -/
def fastDefaults : FastInputs :=
  ⟨none, none, none, none, none, none, none, none, none, none, none, none,
   none, none, none, none, none, none, none, none, none, none, none, none⟩

/-- All assigned parameters of a `FastInputs`, in `Bunch` construction
order. -/
def fastPairs (f : FastInputs) : List (String × PyVal) :=
  optPair "infiles" f.infiles ++
  optPair "number_classes" f.number_classes ++
  optPair "bias_iters" f.bias_iters ++
  optPair "bias_lowpass" f.bias_lowpass ++
  optPair "img_type" f.img_type ++
  optPair "init_seg_smooth" f.init_seg_smooth ++
  optPair "segments" f.segments ++
  optPair "init_transform" f.init_transform ++
  optPair "other_priors" f.other_priors ++
  optPair "nopve" f.nopve ++
  optPair "output_biasfield" f.output_biasfield ++
  optPair "output_biascorrected" f.output_biascorrected ++
  optPair "nobias" f.nobias ++
  optPair "n_inputimages" f.n_inputimages ++
  optPair "out_basename" f.out_basename ++
  optPair "use_priors" f.use_priors ++
  optPair "segment_iters" f.segment_iters ++
  optPair "mixel_smooth" f.mixel_smooth ++
  optPair "iters_afterbias" f.iters_afterbias ++
  optPair "hyper" f.hyper ++
  optPair "verbose" f.verbose ++
  optPair "manualseg" f.manualseg ++
  optPair "probability_maps" f.probability_maps ++
  optPair "flags" f.flags

/-- Modelled from the spec: `container_to_string` from
`nipype.utils.misc` is imported by the source but is not under `src/`.
Per the spec it serialises the multi-file input into "a single trailing
token holding all input paths joined per the adapter's multi-file
serialization convention"; modelled as space-joining, with a scalar
passing through as its string form. -/
def container_to_string : PyVal → String
  | .list xs => String.intercalate " " (xs.map pyStr)
  | v => pyStr v

/-- `Fast._parse_inputs`: the generic tokens with `infiles` skipped,
followed by the single trailing token of the serialised input files when
they are set. -/
def fast_parse_inputs (f : FastInputs) : List String :=
  let allargs := (parse_inputs fast_opt_map ["infiles"] (fastPairs f)).1
  match f.infiles with
  | some v => if pyTruthy v then allargs ++ [container_to_string v] else allargs
  | none => allargs

/-- The outputs `Bunch` of `Fast.aggregate_outputs`.  Field names follow
the source (`partial_volume_map`/`partial_volume_files` are shortened to
`pv_map`/`pv_files` for lexical reasons only). -/
structure FastOutputs where
  mixeltype : List String
  seg : List String
  pv_map : List String
  pv_files : List String
  tissue_class_map : List String
  tissue_class_files : List String
  bias_corrected : List String
  bias_field : List String
  prob_maps : List String

/-- The per-input-file body of `Fast.aggregate_outputs`' loop: derive the
format-adjusted base name (honouring `out_basename`), the class count
(default 3 when `number_classes` is unset), and append the predicted
paths role by role.  The `output_biascorrected` branch writes to
`outputs.biascorrected`, a key the outputs `Bunch` does not define, which
raises `AttributeError` in the source. -/
def fast_process_item (f : FastInputs) (envext : String) (o : FastOutputs)
    (item0 : String) : Except PyErr FastOutputs := do
  let item ←
    if pyTruthyO f.out_basename then
      match f.out_basename with
      | some (.str ob) => pure ((ospath_split item0).1 ++ ob ++ "." ++ envext)
      | _ => throw (.typeError "cannot concatenate")
    else
      pure ((ospath_splitext item0).1 ++ "." ++ envext)
  let nclasses ←
    if pyTruthyO f.number_classes then
      match f.number_classes with
      | some (.int n) => pure n.toNat
      | _ => throw (.typeError "range")
    else pure 3
  let perClass := fun (tag : String) =>
    (List.range nclasses).map
      (fun i => fname_presuffix item (tag ++ toString i) none)
  let o := { o with seg := o.seg ++ [fname_presuffix item "_seg" none] }
  let o :=
    if pyTruthyO f.segments then
      { o with seg := o.seg ++ perClass "_seg_" }
    else o
  let o :=
    if ¬ pyTruthyO f.nopve then
      { o with
        pv_map := o.pv_map ++ [fname_presuffix item "_pveseg" none],
        mixeltype := o.mixeltype ++ [fname_presuffix item "_mixeltype" none],
        pv_files := o.pv_files ++ perClass "_pve_" }
    else o
  let o :=
    if pyTruthyO f.output_biasfield then
      { o with bias_field := o.bias_field ++ [fname_presuffix item "_bias" none] }
    else o
  if pyTruthyO f.output_biascorrected then
    throw (.attributeError "biascorrected")
  else
    let o :=
      if pyTruthyO f.probability_maps then
        { o with prob_maps := o.prob_maps ++ perClass "_prob_" }
      else o
    return o

/-- The verification step of `Fast.aggregate_outputs` for one role: every
path of a non-empty predicted list must match exactly one file, else an
`IOError` naming the path and the role is raised. -/
def fastCheckList (fs : List String) (outtype : String)
    (outlist : List String) : Except PyErr Unit :=
  if outlist.length > 0 then
    outlist.forM (fun f =>
      if (glob f fs).length = 1 then pure ()
      else throw (.ioMissingOutput f outtype))
  else pure ()

/-- `Fast.aggregate_outputs`: normalise `infiles` to a list (a bare
string is wrapped), predict the output paths per input file, then verify
every non-empty role list against the filesystem.  `envext` is the
extension read from the process-wide output-format registry
(`fsloutputtype()[1]`). -/
def fast_aggregate_outputs (f : FastInputs) (envext : String)
    (fs : List String) : Except PyErr FastOutputs := do
  let infiles ←
    match f.infiles with
    | some (.str s) => pure [s]
    | some (.list xs) => xs.mapM (fun v =>
        match v with
        | PyVal.str s => pure s
        | _ => throw (.typeError "rfind"))
    | some _ => throw (.attributeError "rfind")
    | none => throw (.attributeError "rfind")
  let o0 : FastOutputs := ⟨[], [], [], [], [], [], [], [], []⟩
  let o ← infiles.foldlM (fast_process_item f envext) o0
  fastCheckList fs "mixeltype" o.mixeltype
  fastCheckList fs "seg" o.seg
  fastCheckList fs "partial_volume_map" o.pv_map
  fastCheckList fs "partial_volume_files" o.pv_files
  fastCheckList fs "tissue_class_map" o.tissue_class_map
  fastCheckList fs "tissue_class_files" o.tissue_class_files
  fastCheckList fs "bias_corrected" o.bias_corrected
  fastCheckList fs "bias_field" o.bias_field
  fastCheckList fs "prob_maps" o.prob_maps
  return o

/-- `Fast.run`: merge the call's `infiles` argument, raise if no input
files are set, then run and on success aggregate. -/
def fast_run (f : FastInputs) (infiles : Option PyVal) (envext : String)
    (runner : String → Int) (fs : List String) :
    Except PyErr (Int × Option FastOutputs) := do
  let f := if pyTruthyO infiles then { f with infiles := infiles } else f
  if ¬ pyTruthyO f.infiles then
    throw (.attributeError "Fast requires input file(s)")
  else
    let rc := runner (String.intercalate " " ("fast" :: fast_parse_inputs f))
    if rc = 0 then do
      let outs ← fast_aggregate_outputs f envext fs
      return (rc, some outs)
    else
      return (rc, none)

/-! ### Flirt (linear registration) -/

/-- The `Bunch` schema of `Flirt._populate_inputs`. -/
structure FlirtInputs where
  infile : Option String
  outfile : Option String
  reference : Option String
  outmatrix : Option String
  inmatrix : Option String
  datatype : Option PyVal
  cost : Option PyVal
  searchcost : Option PyVal
  usesqform : Option PyVal
  displayinit : Option PyVal
  anglerep : Option PyVal
  interp : Option PyVal
  sincwidth : Option PyVal
  sincwindow : Option PyVal
  bins : Option PyVal
  dof : Option PyVal
  noresample : Option PyVal
  forcescaling : Option PyVal
  minsampling : Option PyVal
  applyisoxfm : Option PyVal
  paddingsize : Option PyVal
  searchrx : Option PyVal
  searchry : Option PyVal
  searchrz : Option PyVal
  nosearch : Option PyVal
  coarsesearch : Option PyVal
  finesearch : Option PyVal
  refweight : Option PyVal
  inweight : Option PyVal
  noclamp : Option PyVal
  noresampblur : Option PyVal
  rigid2D : Option PyVal
  verbose : Option PyVal
  flags : Option PyVal

/-- `Flirt()`'s freshly populated inputs: everything unset. -/
def flirtDefaults : FlirtInputs :=
  ⟨none, none, none, none, none, none, none, none, none, none, none, none,
   none, none, none, none, none, none, none, none, none, none, none, none,
   none, none, none, none, none, none, none, none, none, none⟩

/-- All assigned parameters of a `FlirtInputs`, in `Bunch` construction
order. -/
def flirtPairs (f : FlirtInputs) : List (String × PyVal) :=
  optPair "infile" (f.infile.map PyVal.str) ++
  optPair "outfile" (f.outfile.map PyVal.str) ++
  optPair "reference" (f.reference.map PyVal.str) ++
  optPair "outmatrix" (f.outmatrix.map PyVal.str) ++
  optPair "inmatrix" (f.inmatrix.map PyVal.str) ++
  optPair "datatype" f.datatype ++
  optPair "cost" f.cost ++
  optPair "searchcost" f.searchcost ++
  optPair "usesqform" f.usesqform ++
  optPair "displayinit" f.displayinit ++
  optPair "anglerep" f.anglerep ++
  optPair "interp" f.interp ++
  optPair "sincwidth" f.sincwidth ++
  optPair "sincwindow" f.sincwindow ++
  optPair "bins" f.bins ++
  optPair "dof" f.dof ++
  optPair "noresample" f.noresample ++
  optPair "forcescaling" f.forcescaling ++
  optPair "minsampling" f.minsampling ++
  optPair "applyisoxfm" f.applyisoxfm ++
  optPair "paddingsize" f.paddingsize ++
  optPair "searchrx" f.searchrx ++
  optPair "searchry" f.searchry ++
  optPair "searchrz" f.searchrz ++
  optPair "nosearch" f.nosearch ++
  optPair "coarsesearch" f.coarsesearch ++
  optPair "finesearch" f.finesearch ++
  optPair "refweight" f.refweight ++
  optPair "inweight" f.inweight ++
  optPair "noclamp" f.noclamp ++
  optPair "noresampblur" f.noresampblur ++
  optPair "rigid2D" f.rigid2D ++
  optPair "verbose" f.verbose ++
  optPair "flags" f.flags

/-- `Flirt._parse_inputs`: the generic tokens with the five file slots
skipped; then each assigned slot of `outfile`/`inmatrix`/`outmatrix`/
`reference`/`infile` is inserted at position 0 as a labelled pair token
(so the final order starts `-in`, `-ref`, `-omat`, `-init`, `-out`). -/
def flirt_parse_inputs (f : FlirtInputs) : List String :=
  let allargs := (parse_inputs flirt_opt_map
    ["infile", "outfile", "reference", "outmatrix", "inmatrix"]
    (flirtPairs f)).1
  let ins := [(f.outfile, "-out"), (f.inmatrix, "-init"),
              (f.outmatrix, "-omat"), (f.reference, "-ref"),
              (f.infile, "-in")]
  ins.foldl (fun acc p =>
    if truthyS p.1 then (p.2 ++ " " ++ p.1.getD "") :: acc else acc) allargs

/-- The outputs `Bunch` of `Flirt.aggregate_outputs`. -/
structure FlirtOutputs where
  outfile : Option String
  outmatrix : Option String

/-- `Flirt.aggregate_outputs`: echo the assigned `outfile`/`outmatrix`
into the outputs, then verify `outfile` unconditionally and `outmatrix`
only when `verify_outmatrix` is set; an unset role makes the
corresponding `glob(None)` call raise `TypeError`. -/
def flirt_aggregate_outputs (f : FlirtInputs) (fs : List String)
    (verify_outmatrix : Bool) : Except PyErr FlirtOutputs := do
  let o : FlirtOutputs :=
    ⟨if truthyS f.outfile then f.outfile else none,
     if truthyS f.outmatrix then f.outmatrix else none⟩
  let g ← globOpt o.outfile fs
  if g.isEmpty then
    throw (.ioNotGenerated (o.outfile.getD ""))
  else
    if verify_outmatrix then do
      let g2 ← globOpt o.outmatrix fs
      if g2.isEmpty then
        throw (.ioNotGenerated (o.outmatrix.getD ""))
      else
        return o
    else
      return o

/-- `Flirt.run`: merge the call arguments, raise if `infile` or
`reference` is unset, then run and on success aggregate with
`verify_outmatrix` on. -/
def flirt_run (f : FlirtInputs)
    (infile reference outfile outmatrix : Option String)
    (runner : String → Int) (fs : List String) :
    Except PyErr (Int × Option FlirtOutputs) := do
  let f := if truthyS infile then { f with infile := infile } else f
  if ¬ truthyS f.infile then
    throw (.attributeError "Flirt requires an infile.")
  else
    let f := if truthyS reference then { f with reference := reference } else f
    if ¬ truthyS f.reference then
      throw (.attributeError "Flirt requires a reference file.")
    else
      let f := if truthyS outfile then { f with outfile := outfile } else f
      let f := if truthyS outmatrix then { f with outmatrix := outmatrix } else f
      let rc := runner (String.intercalate " " ("flirt" :: flirt_parse_inputs f))
      if rc = 0 then do
        let o ← flirt_aggregate_outputs f fs true
        return (rc, some o)
      else
        return (rc, none)

/-- `Flirt.applyxfm`: merge the call arguments, raise if `infile`,
`reference` or `inmatrix` is unset, join `-applyxfm` onto the call's
`flags` keyword (overwriting the stored flags), then run and on success
aggregate with `verify_outmatrix` off (apply-transform runs do not
regenerate a matrix). -/
def flirt_applyxfm (f : FlirtInputs)
    (infile reference inmatrix outfile : Option String)
    (callFlags : Option String)
    (runner : String → Int) (fs : List String) :
    Except PyErr (Int × Option FlirtOutputs) := do
  let f := if truthyS infile then { f with infile := infile } else f
  if ¬ truthyS f.infile then
    throw (.attributeError "Flirt requires an infile.")
  else
    let f := if truthyS reference then { f with reference := reference } else f
    if ¬ truthyS f.reference then
      throw (.attributeError "Flirt requires a reference file.")
    else
      let f := if truthyS inmatrix then { f with inmatrix := inmatrix } else f
      if ¬ truthyS f.inmatrix then
        throw (.attributeError "Flirt applyxfm requires an inmatrix")
      else
        let f := if truthyS outfile then { f with outfile := outfile } else f
        let newflags :=
          match callFlags with
          | none => "-applyxfm"
          | some fl => fl ++ " " ++ "-applyxfm"
        let f := { f with flags := some (PyVal.str newflags) }
        let rc := runner (String.intercalate " " ("flirt" :: flirt_parse_inputs f))
        if rc = 0 then do
          let o ← flirt_aggregate_outputs f fs false
          return (rc, some o)
        else
          return (rc, none)

/-! ### McFlirt (motion correction) -/

/-- The `Bunch` schema of `McFlirt._populate_inputs`. -/
structure McFlirtInputs where
  infile : Option String
  outfile : Option String
  cost : Option PyVal
  bins : Option PyVal
  dof : Option PyVal
  refvol : Option PyVal
  scaling : Option PyVal
  smooth : Option PyVal
  rotation : Option PyVal
  verbose : Option PyVal
  stages : Option PyVal
  init : Option PyVal
  usegradient : Option PyVal
  usecontour : Option PyVal
  meanvol : Option PyVal
  statsimgs : Option PyVal
  savemats : Option PyVal
  saveplots : Option PyVal
  report : Option PyVal

/-- `McFlirt()`'s freshly populated inputs: everything unset. -/
def mcflirtDefaults : McFlirtInputs :=
  ⟨none, none, none, none, none, none, none, none, none, none, none, none,
   none, none, none, none, none, none, none⟩

/-- All assigned parameters of a `McFlirtInputs`, in `Bunch` construction
order. -/
def mcflirtPairs (m : McFlirtInputs) : List (String × PyVal) :=
  optPair "infile" (m.infile.map PyVal.str) ++
  optPair "outfile" (m.outfile.map PyVal.str) ++
  optPair "cost" m.cost ++
  optPair "bins" m.bins ++
  optPair "dof" m.dof ++
  optPair "refvol" m.refvol ++
  optPair "scaling" m.scaling ++
  optPair "smooth" m.smooth ++
  optPair "rotation" m.rotation ++
  optPair "verbose" m.verbose ++
  optPair "stages" m.stages ++
  optPair "init" m.init ++
  optPair "usegradient" m.usegradient ++
  optPair "usecontour" m.usecontour ++
  optPair "meanvol" m.meanvol ++
  optPair "statsimgs" m.statsimgs ++
  optPair "savemats" m.savemats ++
  optPair "saveplots" m.saveplots ++
  optPair "report" m.report

/-- `McFlirt._parse_inputs`: the generic tokens with `infile` skipped,
with the labelled `-in` token inserted at position 0 when `infile` is
set. -/
def mcflirt_parse_inputs (m : McFlirtInputs) : List String :=
  let allargs := (parse_inputs mcflirt_opt_map ["infile"] (mcflirtPairs m)).1
  if truthyS m.infile then ("-in " ++ m.infile.getD "") :: allargs
  else allargs

/-- The outputs `Bunch` of `McFlirt.aggregate_outputs`. -/
structure McFlirtOutputs where
  outfile : Option String
  varianceimg : Option String
  stdimg : Option String
  meanimg : Option String
  parfile : Option String
  outmatfile : Option String

/-- `McFlirt.aggregate_outputs`, faithfully to the source's base-name
derivation, which cannot succeed on the schema `Bunch`:

* with `outfile` set, the branch runs
  `item = self.inputs.out_basename + '.%s' % (envext)`, but
  `out_basename` is not a key of the `McFlirt` inputs `Bunch`, so the
  attribute access raises `AttributeError`;
* with `outfile` unset, the branch runs
  `nme, ext = os.path.splitext(item)` with the local variable `item` not
  yet assigned, raising `UnboundLocalError`.

The rest of the method (the predictions driven by `statsimgs` —
itself read as the nonexistent field `stats` — `savemats` and
`saveplots`, and the per-file existence checks) is unreachable. -/
def mcflirt_aggregate_outputs (m : McFlirtInputs) (_envext : String)
    (_fs : List String) : Except PyErr McFlirtOutputs :=
  if truthyS m.outfile then
    .error (.attributeError "out_basename")
  else
    .error (.unboundLocalError "item")

/-- `McFlirt.run`: merge the call's `infile`, raise if it is unset, then
run and on success aggregate. -/
def mcflirt_run (m : McFlirtInputs) (infile : Option String)
    (envext : String) (runner : String → Int) (fs : List String) :
    Except PyErr (Int × Option McFlirtOutputs) := do
  let m := if truthyS infile then { m with infile := infile } else m
  if ¬ truthyS m.infile then
    throw (.attributeError "McFlirt requires an infile.")
  else
    let rc := runner (String.intercalate " " ("mcflirt" :: mcflirt_parse_inputs m))
    if rc = 0 then do
      let o ← mcflirt_aggregate_outputs m envext fs
      return (rc, some o)
    else
      return (rc, none)

/-! ### Fnirt (non-linear registration) -/

/-- The `Bunch` schema of `Fnirt._populate_inputs` (plus the `flags`
escape hatch present in `Fnirt.opt_map`). -/
structure FnirtInputs where
  infile : Option String
  reference : Option String
  affine : Option PyVal
  initwarp : Option PyVal
  initintensity : Option PyVal
  configfile : Option PyVal
  referencemask : Option PyVal
  imagemask : Option PyVal
  fieldcoeff_file : Option String
  outimage : Option String
  fieldfile : Option String
  jacobianfile : Option String
  reffile : Option String
  intensityfile : Option String
  logfile : Option String
  verbose : Option PyVal
  sub_sampling : Option PyVal
  max_iter : Option PyVal
  referencefwhm : Option PyVal
  imgfwhm : Option PyVal
  lambdas : Option PyVal
  estintensity : Option PyVal
  applyrefmask : Option PyVal
  applyimgmask : Option PyVal
  flags : Option PyVal

/-- `Fnirt()`'s freshly populated inputs: everything unset. -/
def fnirtDefaults : FnirtInputs :=
  ⟨none, none, none, none, none, none, none, none, none, none, none, none,
   none, none, none, none, none, none, none, none, none, none, none, none,
   none⟩

/-- All assigned parameters of a `FnirtInputs`, in `Bunch` construction
order. -/
def fnirtPairs (f : FnirtInputs) : List (String × PyVal) :=
  optPair "infile" (f.infile.map PyVal.str) ++
  optPair "reference" (f.reference.map PyVal.str) ++
  optPair "affine" f.affine ++
  optPair "initwarp" f.initwarp ++
  optPair "initintensity" f.initintensity ++
  optPair "configfile" f.configfile ++
  optPair "referencemask" f.referencemask ++
  optPair "imagemask" f.imagemask ++
  optPair "fieldcoeff_file" (f.fieldcoeff_file.map PyVal.str) ++
  optPair "outimage" (f.outimage.map PyVal.str) ++
  optPair "fieldfile" (f.fieldfile.map PyVal.str) ++
  optPair "jacobianfile" (f.jacobianfile.map PyVal.str) ++
  optPair "reffile" (f.reffile.map PyVal.str) ++
  optPair "intensityfile" (f.intensityfile.map PyVal.str) ++
  optPair "logfile" (f.logfile.map PyVal.str) ++
  optPair "verbose" f.verbose ++
  optPair "sub_sampling" f.sub_sampling ++
  optPair "max_iter" f.max_iter ++
  optPair "referencefwhm" f.referencefwhm ++
  optPair "imgfwhm" f.imgfwhm ++
  optPair "lambdas" f.lambdas ++
  optPair "estintensity" f.estintensity ++
  optPair "applyrefmask" f.applyrefmask ++
  optPair "applyimgmask" f.applyimgmask ++
  optPair "flags" f.flags

/-- The `itemstoupdate` list of `Fnirt.update_optmap`: the
variable-arity numeric options. -/
def fnirtVarItems : List String :=
  ["sub_sampling", "max_iter", "referencefwhm", "imgfwhm",
   "lambdas", "estintensity", "applyrefmask", "applyimgmask"]

/-- `self.inputs.get(item)` for the names in `fnirtVarItems`. -/
def fnirtGet (f : FnirtInputs) (k : String) : Option PyVal :=
  if k = "sub_sampling" then f.sub_sampling
  else if k = "max_iter" then f.max_iter
  else if k = "referencefwhm" then f.referencefwhm
  else if k = "imgfwhm" then f.imgfwhm
  else if k = "lambdas" then f.lambdas
  else if k = "estintensity" then f.estintensity
  else if k = "applyrefmask" then f.applyrefmask
  else if k = "applyimgmask" then f.applyimgmask
  else none

/-- Split a character list at every space. -/
def splitSpaces : List Char → List (List Char)
  | [] => [[]]
  | ' ' :: rest => [] :: splitSpaces rest
  | c :: rest =>
    match splitSpaces rest with
    | [] => [[c]]
    | w :: ws => (c :: w) :: ws

/-- Python `str.split()`: split on runs of whitespace, dropping empty
pieces (the option-map entries only contain single spaces). -/
def pySplitWS (s : String) : List String :=
  ((splitSpaces s.toList).map String.mk).filter (fun t => !t.isEmpty)

/-- `s * n` for a string: `n` concatenated copies. -/
def strRepeat (s : String) : Nat → String
  | 0 => ""
  | n + 1 => s ++ strRepeat s n

/-- The rewriting of one option-map entry by `Fnirt.update_optmap`:
`opt = self.opt_map[item].split()`, then
`valstr = opt[0] + ' %s' % (opt[1]) * len(values)` — one copy of the
original conversion per element for a list value (character for a
string value, since Python's `len` also accepts strings); `len` raises
`TypeError` on a number, caught to produce the single-placeholder
`opt[0] + ' %s' % (opt[1])`. -/
def update_one_opt (fmt : String) (v : PyVal) : String :=
  let parts := pySplitWS fmt
  let o0 := parts.headD ""
  let o1 := (parts.drop 1).headD ""
  match v with
  | .list xs => o0 ++ strRepeat (" " ++ o1) xs.length
  | .str s => o0 ++ strRepeat (" " ++ o1) s.length
  | _ => o0 ++ " " ++ o1

/-- Replace the value stored under `k` in an association list (a Python
dict item assignment for an existing key). -/
def assocSet (om : List (String × String)) (k v : String) :
    List (String × String) :=
  om.map (fun p => if p.1 = k then (p.1, v) else p)

/-- One step of `Fnirt.update_optmap`'s loop: a truthy value under a
variable-arity item rewrites that item's format template. -/
def updStep (f : FnirtInputs) (om : List (String × String)) (item : String) :
    List (String × String) :=
  match fnirtGet f item with
  | some v =>
      if pyTruthy v then
        match om.lookup item with
        | some fmt => assocSet om item (update_one_opt fmt v)
        | none => om
      else om
  | none => om

/-- `Fnirt.update_optmap`: regenerate the format templates of the
variable-arity numeric options from the supplied values. -/
def fnirt_update_optmap (om : List (String × String)) (f : FnirtInputs) :
    List (String × String) :=
  fnirtVarItems.foldl (updStep f) om

/-- `Fnirt._parse_inputs`: the generic tokens (against the given,
possibly `update_optmap`-rewritten, option map) with `infile`/`reference`
skipped, then the `=`-joined labelled tokens for `reference` and `infile`
inserted at position 0 (so the final order starts `--in=`, `--ref=`). -/
def fnirt_parse_inputs (om : List (String × String)) (f : FnirtInputs) :
    List String :=
  let allargs := (parse_inputs om ["infile", "reference"] (fnirtPairs f)).1
  let ins := [(f.reference, "--ref="), (f.infile, "--in=")]
  ins.foldl (fun acc p =>
    if truthyS p.1 then (p.2 ++ p.1.getD "") :: acc else acc) allargs

/-- `Fnirt.cmdline`: `update_optmap` then `_parse_inputs`, with the tool
name prepended. -/
def fnirt_cmdline (f : FnirtInputs) : String :=
  String.intercalate " "
    ("fnirt" :: fnirt_parse_inputs (fnirt_update_optmap fnirt_opt_map f) f)

/-- The outputs `Bunch` of `Fnirt.aggregate_outputs`. -/
structure FnirtOutputs where
  coefficientsfile : Option String
  warpedimage : Option String
  warpfield : Option String
  jacobianfield : Option String
  modulatedreference : Option String
  intensitymodulation : Option String
  logfile : Option String

/-- The `(role, file)` items of a `FnirtOutputs`, in `Bunch` construction
order. -/
def fnirtRoles (o : FnirtOutputs) : List (String × Option String) :=
  [("coefficientsfile", o.coefficientsfile),
   ("warpedimage", o.warpedimage),
   ("warpfield", o.warpfield),
   ("jacobianfield", o.jacobianfield),
   ("modulatedreference", o.modulatedreference),
   ("intensitymodulation", o.intensitymodulation),
   ("logfile", o.logfile)]

/-- `Fnirt.aggregate_outputs`: echo each assigned output-path parameter
into its role, then iterate over ALL items — including the `None` ones —
checking `len(glob(file)) < 1`; `glob(None)` raises `TypeError` inside
the standard library, so any unsupplied role aborts the check. -/
def fnirt_aggregate_outputs (f : FnirtInputs) (fs : List String) :
    Except PyErr FnirtOutputs := do
  let tr := fun (x : Option String) => if truthyS x then x else none
  let o : FnirtOutputs :=
    ⟨tr f.fieldcoeff_file, tr f.outimage, tr f.fieldfile, tr f.jacobianfile,
     tr f.reffile, tr f.intensityfile, tr f.logfile⟩
  (fnirtRoles o).forM (fun p => do
    let g ← globOpt p.2 fs
    if g.length < 1 then
      throw (.ioFileOfType (p.2.getD "") p.1)
    else
      pure ())
  return o

/-- `Fnirt.run`: merge the call's `infile`/`reference`, raise if either
is unset, then run and on success aggregate. -/
def fnirt_run (f : FnirtInputs) (infile reference : Option String)
    (runner : String → Int) (fs : List String) :
    Except PyErr (Int × Option FnirtOutputs) := do
  let f := if truthyS infile then { f with infile := infile } else f
  if ¬ truthyS f.infile then
    throw (.attributeError "Fnirt requires an infile.")
  else
    let f := if truthyS reference then { f with reference := reference } else f
    if ¬ truthyS f.reference then
      throw (.attributeError "Fnirt requires a reference file.")
    else
      let rc := runner (fnirt_cmdline f)
      if rc = 0 then do
        let o ← fnirt_aggregate_outputs f fs
        return (rc, some o)
      else
        return (rc, none)

/-! ### Engine lemmas -/

theorem except_throw_eq {ε α : Type} (e : ε) :
    (throw e : Except ε α) = Except.error e := rfl

theorem except_pure_eq {ε α : Type} (a : α) :
    (pure a : Except ε α) = Except.ok a := rfl

theorem except_ok_bind {ε α β : Type} (a : α) (f : α → Except ε β) :
    (Except.ok a >>= f) = f a := rfl

theorem except_error_bind {ε α β : Type} (e : ε) (f : α → Except ε β) :
    (Except.error e >>= f) = Except.error e := rfl

theorem truthyS_none : truthyS none = false := rfl

theorem pyTruthyO_none : pyTruthyO none = false := rfl

theorem parse_inputs_append (om : List (String × String)) (skip : List String)
    (xs ys : List (String × PyVal)) :
    parse_inputs om skip (xs ++ ys) =
      ((parse_inputs om skip xs).1 ++ (parse_inputs om skip ys).1,
       (parse_inputs om skip xs).2 ++ (parse_inputs om skip ys).2) := by
  simp [parse_inputs, List.map_append, List.flatten_append]

theorem parse_inputs_nil (om : List (String × String)) (skip : List String) :
    parse_inputs om skip [] = ([], []) := rfl

theorem parse_inputs_singleton (om : List (String × String))
    (skip : List String) (p : String × PyVal) :
    parse_inputs om skip [p] = parseOne om skip p := by
  simp [parse_inputs]

theorem lookup_mem {l : List (String × String)} {k v : String}
    (h : l.lookup k = some v) : (k, v) ∈ l := by
  induction l with
  | nil => simp [List.lookup] at h
  | cons p t ih =>
    obtain ⟨k', v'⟩ := p
    rw [List.lookup] at h
    by_cases hk : k = k'
    · subst hk
      simp at h
      subst h
      exact List.mem_cons_self _ _
    · have : (k == k') = false := beq_false_of_ne hk
      rw [this] at h
      exact List.mem_cons_of_mem _ (ih h)

/-- No adapter schema has an `args` parameter: `'args'` is not a key of
any of the five option maps. -/
theorem args_not_a_key : ∀ om ∈ allOptMaps, om.lookup "args" = none := by
  decide

/-- Every format string of every option map tokenizes. -/
theorem optmaps_wf : ∀ om ∈ allOptMaps, ∀ p ∈ om,
    (tokenizeFmt p.2.toList).isSome = true := by
  decide

theorem pyFormatToks_length {toks : List (Sum Char Conv)} {xs : List PyVal}
    {t : String} (h : pyFormatToks toks xs = some t) :
    xs.length = convCount toks := by
  induction toks generalizing xs t with
  | nil =>
    cases xs with
    | nil => simp [convCount]
    | cons a as => simp [pyFormatToks] at h
  | cons hd tl ih =>
    cases hd with
    | inl c =>
      rw [pyFormatToks] at h
      cases htl : pyFormatToks tl xs with
      | none => rw [htl] at h; simp at h
      | some t' =>
        simp [convCount, List.countP_cons]
        exact ih htl
    | inr cv =>
      cases xs with
      | nil => simp [pyFormatToks] at h
      | cons a as =>
        rw [pyFormatToks] at h
        cases hr : renderConv cv a with
        | none => rw [hr] at h; simp at h
        | some r =>
          cases htl : pyFormatToks tl as with
          | none => rw [hr, htl] at h; simp at h
          | some t' =>
            simp [convCount, List.countP_cons]
            have := ih htl
            simp [convCount] at this
            omega

theorem renderConv_int (cv : Conv) (n : Int) :
    ∃ r, renderConv cv (PyVal.int n) = some r := by
  cases cv <;> simp [renderConv]

theorem pyFormatToks_ints {toks : List (Sum Char Conv)} {xs : List PyVal}
    (hlen : xs.length = convCount toks)
    (hint : ∀ v ∈ xs, ∃ n : Int, v = PyVal.int n) :
    ∃ t, pyFormatToks toks xs = some t := by
  induction toks generalizing xs with
  | nil =>
    have : xs = [] := by
      cases xs with
      | nil => rfl
      | cons a as => simp [convCount] at hlen
    subst this
    exact ⟨"", rfl⟩
  | cons hd tl ih =>
    cases hd with
    | inl c =>
      have hlen' : xs.length = convCount tl := by
        simpa [convCount, List.countP_cons] using hlen
      obtain ⟨t, ht⟩ := ih hlen' hint
      exact ⟨c.toString ++ t, by rw [pyFormatToks, ht]; rfl⟩
    | inr cv =>
      cases xs with
      | nil => simp [convCount, List.countP_cons] at hlen
      | cons a as =>
        obtain ⟨n, hn⟩ := hint a (List.mem_cons_self _ _)
        subst hn
        obtain ⟨r, hr⟩ := renderConv_int cv n
        have hlen' : as.length = convCount tl := by
          simp [convCount, List.countP_cons] at hlen ⊢
          omega
        obtain ⟨t, ht⟩ := ih hlen' (fun v hv => hint v (List.mem_cons_of_mem _ hv))
        refine ⟨r ++ t, ?_⟩
        rw [pyFormatToks, hr, ht]

theorem formatOne_flag (om : List (String × String)) (opt argstr : String)
    (hlk : om.lookup opt = some argstr) (hp : hasPercent argstr = false)
    (v : PyVal) :
    formatOne om opt v = (flagTokens argstr v, flagViols opt v) := by
  rw [formatOne, hlk]
  simp [hp]

theorem pyFormat_length {argstr : String} {xs : List PyVal} {tok : String}
    (h : pyFormat argstr xs = some tok) : xs.length = numConvs argstr := by
  rw [pyFormat] at h
  cases htk : tokenizeFmt argstr.toList with
  | none => rw [htk] at h; simp at h
  | some toks =>
    rw [htk] at h
    rw [numConvs, htk]
    exact pyFormatToks_length h

theorem formatOne_list_mismatch (om : List (String × String))
    (opt argstr : String) (hlk : om.lookup opt = some argstr)
    (hp : hasPercent argstr = true) (xs : List PyVal)
    (hne : xs.length ≠ numConvs argstr) :
    formatOne om opt (PyVal.list xs) = ([], [Violation.typeErr opt]) := by
  rw [formatOne, hlk]
  simp only [hp, if_true]
  cases hf : pyFormat argstr xs with
  | none => rfl
  | some tok => exact absurd (pyFormat_length hf) hne

theorem formatOne_list_ok (om : List (String × String))
    (opt argstr : String) (hlk : om.lookup opt = some argstr)
    (hp : hasPercent argstr = true)
    (htk : (tokenizeFmt argstr.toList).isSome = true)
    (xs : List PyVal) (hlen : xs.length = numConvs argstr)
    (hint : ∀ v ∈ xs, ∃ n : Int, v = PyVal.int n) :
    ∃ tok, pyFormat argstr xs = some tok ∧
      formatOne om opt (PyVal.list xs) = ([tok], []) := by
  obtain ⟨toks, htoks⟩ := Option.isSome_iff_exists.mp htk
  have hlen' : xs.length = convCount toks := by
    rw [numConvs, htoks] at hlen
    exact hlen
  obtain ⟨t, ht⟩ := pyFormatToks_ints hlen' hint
  have hf : pyFormat argstr xs = some t := by
    rw [pyFormat, htoks]
    exact ht
  refine ⟨t, hf, ?_⟩
  rw [formatOne, hlk]
  simp only [hp, if_true]
  rw [hf]

theorem parseOne_opt (om : List (String × String)) (skip : List String)
    (opt : String) (v : PyVal) (hskip : opt ∉ skip) (hargs : opt ≠ "args") :
    parseOne om skip (opt, v) = formatOne om opt v := by
  simp [parseOne, hskip, hargs]

/-! ### Claim theorems -/

/-- Claim C1: for every boolean-flag parameter in an adapter's OptionSpec
(an `opt_map` entry whose format string contains no `%`), the parse step
emits exactly the fixed flag token when the value is `True`, no token
when it is `False` (`flagTokens`), and for any other value no token plus
one reported violation (`flagViols`), with processing of the surrounding
parameters unaffected. -/
theorem flag_option_parse (om : List (String × String))
    (hom : om ∈ allOptMaps) (opt argstr : String)
    (hlk : om.lookup opt = some argstr) (hp : hasPercent argstr = false)
    (v : PyVal) (skip : List String) (hskip : opt ∉ skip)
    (pre post : List (String × PyVal)) :
    parse_inputs om skip (pre ++ (opt, v) :: post) =
      ((parse_inputs om skip pre).1 ++ flagTokens argstr v ++
         (parse_inputs om skip post).1,
       (parse_inputs om skip pre).2 ++ flagViols opt v ++
         (parse_inputs om skip post).2) := by
  have hargs : opt ≠ "args" := by
    intro h
    subst h
    rw [args_not_a_key om hom] at hlk
    exact Option.noConfusion hlk
  have hmid : parse_inputs om skip [(opt, v)] =
      (flagTokens argstr v, flagViols opt v) := by
    rw [parse_inputs_singleton, parseOne_opt om skip opt v hskip hargs,
        formatOne_flag om opt argstr hlk hp]
  calc parse_inputs om skip (pre ++ (opt, v) :: post)
      = parse_inputs om skip (pre ++ [(opt, v)] ++ post) := by simp
    _ = _ := by
        rw [parse_inputs_append, parse_inputs_append, hmid]

/-- Witness for C1 at a concrete input: `Bet`'s `outline` flag (`-o`)
given the non-boolean value `7` emits no token and reports one
violation. -/
theorem flag_option_parse_witness :
    parse_inputs bet_opt_map [] ([] ++ ("outline", PyVal.int 7) :: []) =
      ((parse_inputs bet_opt_map [] []).1 ++ flagTokens "-o" (PyVal.int 7) ++
         (parse_inputs bet_opt_map [] []).1,
       (parse_inputs bet_opt_map [] []).2 ++ flagViols "outline" (PyVal.int 7) ++
         (parse_inputs bet_opt_map [] []).2) :=
  flag_option_parse bet_opt_map (by simp [allOptMaps]) "outline" "-o"
    (by decide) (by decide) (PyVal.int 7) [] (by simp) [] []

/-- Claim C2: for every templated parameter (an `opt_map` entry whose
format string contains `%`) of arity `N` (`numConvs` placeholders), a
sequence value of length ≠ `N` yields no token and one reported
violation, while a sequence of numbers of length exactly `N` yields the
single token obtained by positional substitution (`pyFormat`, which
consumes the sequence elements in order); surrounding parameters are
processed either way. -/
theorem templated_option_parse (om : List (String × String))
    (hom : om ∈ allOptMaps) (opt argstr : String) (N : Nat)
    (hlk : om.lookup opt = some argstr) (hp : hasPercent argstr = true)
    (hn : numConvs argstr = N)
    (xs : List PyVal) (skip : List String) (hskip : opt ∉ skip)
    (pre post : List (String × PyVal)) :
    (xs.length ≠ N →
      parse_inputs om skip (pre ++ (opt, PyVal.list xs) :: post) =
        ((parse_inputs om skip pre).1 ++ (parse_inputs om skip post).1,
         (parse_inputs om skip pre).2 ++ Violation.typeErr opt ::
           (parse_inputs om skip post).2)) ∧
    ((∀ v ∈ xs, ∃ n : Int, v = PyVal.int n) → xs.length = N →
      ∃ tok, pyFormat argstr xs = some tok ∧
        parse_inputs om skip (pre ++ (opt, PyVal.list xs) :: post) =
          ((parse_inputs om skip pre).1 ++ tok ::
             (parse_inputs om skip post).1,
           (parse_inputs om skip pre).2 ++ (parse_inputs om skip post).2)) := by
  have hargs : opt ≠ "args" := by
    intro h
    subst h
    rw [args_not_a_key om hom] at hlk
    exact Option.noConfusion hlk
  have hsplit : ∀ mid : List String × List Violation,
      parse_inputs om skip [(opt, PyVal.list xs)] = mid →
      parse_inputs om skip (pre ++ (opt, PyVal.list xs) :: post) =
        ((parse_inputs om skip pre).1 ++ mid.1 ++ (parse_inputs om skip post).1,
         (parse_inputs om skip pre).2 ++ mid.2 ++ (parse_inputs om skip post).2) := by
    intro mid hmid
    calc parse_inputs om skip (pre ++ (opt, PyVal.list xs) :: post)
        = parse_inputs om skip (pre ++ [(opt, PyVal.list xs)] ++ post) := by simp
      _ = _ := by rw [parse_inputs_append, parse_inputs_append, hmid]
  constructor
  · intro hne
    have hmid : parse_inputs om skip [(opt, PyVal.list xs)] =
        ([], [Violation.typeErr opt]) := by
      rw [parse_inputs_singleton, parseOne_opt om skip opt _ hskip hargs,
          formatOne_list_mismatch om opt argstr hlk hp xs (by rw [hn]; exact hne)]
    have := hsplit _ hmid
    simpa using this
  · intro hint hlen
    have htk : (tokenizeFmt argstr.toList).isSome = true :=
      optmaps_wf om hom (opt, argstr) (lookup_mem hlk)
    obtain ⟨tok, hf, hfo⟩ := formatOne_list_ok om opt argstr hlk hp htk xs
      (by rw [hn]; exact hlen) hint
    have hmid : parse_inputs om skip [(opt, PyVal.list xs)] = ([tok], []) := by
      rw [parse_inputs_singleton, parseOne_opt om skip opt _ hskip hargs, hfo]
    have := hsplit _ hmid
    refine ⟨tok, hf, by simpa using this⟩

/-- Witness for C2 at concrete inputs: `Bet`'s `center` option
(`-c %d %d %d`, arity 3) given `[1]` emits no token and reports one
violation, and given `[1, 2, 3]` emits the single token
`-c 1 2 3`. -/
theorem templated_option_parse_witness :
    (parse_inputs bet_opt_map [] ([] ++ ("center", PyVal.list [PyVal.int 1]) :: []) =
      ((parse_inputs bet_opt_map [] []).1 ++ (parse_inputs bet_opt_map [] []).1,
       (parse_inputs bet_opt_map [] []).2 ++ Violation.typeErr "center" ::
         (parse_inputs bet_opt_map [] []).2)) ∧
    (∃ tok, pyFormat "-c %d %d %d" [PyVal.int 1, PyVal.int 2, PyVal.int 3] =
        some tok ∧
      parse_inputs bet_opt_map []
          ([] ++ ("center", PyVal.list [PyVal.int 1, PyVal.int 2, PyVal.int 3]) :: []) =
        ((parse_inputs bet_opt_map [] []).1 ++ tok ::
           (parse_inputs bet_opt_map [] []).1,
         (parse_inputs bet_opt_map [] []).2 ++ (parse_inputs bet_opt_map [] []).2)) :=
  ⟨(templated_option_parse bet_opt_map (by simp [allOptMaps]) "center"
      "-c %d %d %d" 3 (by decide) (by decide) (by decide)
      [PyVal.int 1] [] (by simp) [] []).1 (by decide),
   (templated_option_parse bet_opt_map (by simp [allOptMaps]) "center"
      "-c %d %d %d" 3 (by decide) (by decide) (by decide)
      [PyVal.int 1, PyVal.int 2, PyVal.int 3] [] (by simp) [] []).2
      (by intro v hv; fin_cases hv <;> exact ⟨_, rfl⟩) (by decide)⟩

/-- Claim C3: every adapter's run entry point raises an
`AttributeError` when a mandatory parameter is unset — Bet/Fast/McFlirt
with no input file, Flirt and Fnirt also with no reference, and
`Flirt.applyxfm` also with no input matrix.  The conclusion holds for
every runner and every filesystem, so the failure happens before the
external process is consulted and no outputs are aggregated. -/
theorem mandatory_param_raises (runner : String → Int) (fs : List String)
    (envext : String)
    (b : BetInputs) (hb : truthyS b.infile = false)
    (fa : FastInputs) (hfa : pyTruthyO fa.infiles = false)
    (fl : FlirtInputs) (hfl : truthyS fl.infile = false)
    (fl2 : FlirtInputs) (hfl2 : truthyS fl2.infile = true)
    (hfl2r : truthyS fl2.reference = false)
    (fl3 : FlirtInputs) (hfl3 : truthyS fl3.infile = true)
    (hfl3r : truthyS fl3.reference = true)
    (hfl3m : truthyS fl3.inmatrix = false)
    (m : McFlirtInputs) (hm : truthyS m.infile = false)
    (fn : FnirtInputs) (hfn : truthyS fn.infile = false)
    (fn2 : FnirtInputs) (hfn2 : truthyS fn2.infile = true)
    (hfn2r : truthyS fn2.reference = false) :
    bet_run b none none runner fs =
      .error (.attributeError "Bet requires an input file") ∧
    fast_run fa none envext runner fs =
      .error (.attributeError "Fast requires input file(s)") ∧
    flirt_run fl none none none none runner fs =
      .error (.attributeError "Flirt requires an infile.") ∧
    flirt_run fl2 none none none none runner fs =
      .error (.attributeError "Flirt requires a reference file.") ∧
    flirt_applyxfm fl3 none none none none none runner fs =
      .error (.attributeError "Flirt applyxfm requires an inmatrix") ∧
    mcflirt_run m none envext runner fs =
      .error (.attributeError "McFlirt requires an infile.") ∧
    fnirt_run fn none none runner fs =
      .error (.attributeError "Fnirt requires an infile.") ∧
    fnirt_run fn2 none none runner fs =
      .error (.attributeError "Fnirt requires a reference file.") := by
  refine ⟨?_, ?_, ?_, ?_, ?_, ?_, ?_, ?_⟩
  · simp [bet_run, truthyS_none, hb, except_throw_eq]
  · simp [fast_run, pyTruthyO_none, hfa, except_throw_eq]
  · simp [flirt_run, truthyS_none, hfl, except_throw_eq]
  · simp [flirt_run, truthyS_none, hfl2, hfl2r, except_throw_eq]
  · simp [flirt_applyxfm, truthyS_none, hfl3, hfl3r, hfl3m, except_throw_eq]
  · simp [mcflirt_run, truthyS_none, hm, except_throw_eq]
  · simp [fnirt_run, truthyS_none, hfn, except_throw_eq]
  · simp [fnirt_run, truthyS_none, hfn2, hfn2r, except_throw_eq]

/-- Witness for C3: the freshly populated (all-unset) inputs of each
adapter make every run entry point raise, for an arbitrary concrete
runner and filesystem. -/
theorem mandatory_param_raises_witness :
    bet_run betDefaults none none (fun _ => 0) [] =
      .error (.attributeError "Bet requires an input file") ∧
    fast_run fastDefaults none "nii" (fun _ => 0) [] =
      .error (.attributeError "Fast requires input file(s)") ∧
    flirt_run flirtDefaults none none none none (fun _ => 0) [] =
      .error (.attributeError "Flirt requires an infile.") ∧
    flirt_run { flirtDefaults with infile := some "s.nii" }
        none none none none (fun _ => 0) [] =
      .error (.attributeError "Flirt requires a reference file.") ∧
    flirt_applyxfm { flirtDefaults with infile := some "s.nii", reference := some "t.nii" } none none none none none (fun _ => 0) [] =
      .error (.attributeError "Flirt applyxfm requires an inmatrix") ∧
    mcflirt_run mcflirtDefaults none "nii" (fun _ => 0) [] =
      .error (.attributeError "McFlirt requires an infile.") ∧
    fnirt_run fnirtDefaults none none (fun _ => 0) [] =
      .error (.attributeError "Fnirt requires an infile.") ∧
    fnirt_run { fnirtDefaults with infile := some "a.nii" }
        none none (fun _ => 0) [] =
      .error (.attributeError "Fnirt requires a reference file.") :=
  mandatory_param_raises (fun _ => 0) [] "nii"
    betDefaults (by decide) fastDefaults (by decide)
    flirtDefaults (by decide)
    { flirtDefaults with infile := some "s.nii" } (by decide) (by decide)
    { flirtDefaults with infile := some "s.nii", reference := some "t.nii" }
    (by decide) (by decide) (by decide)
    mcflirtDefaults (by decide)
    fnirtDefaults (by decide)
    { fnirtDefaults with infile := some "a.nii" } (by decide) (by decide)

/-- Evaluation of `Bet.aggregate_outputs` when no output file is set and
an input file is: the output path is derived from the input name with the
`_bet` suffix, asserted to match exactly one file, and the `_mask`
companion is looked up without being required. -/
theorem bet_aggregate_spec (b : BetInputs) (fs : List String)
    (hof : truthyS b.outfile = false) (inf : String)
    (hin : b.infile = some inf) :
    bet_aggregate_outputs b fs =
      (if (glob (ospath_join (b.cwd.getD (ospath_split inf).1)
            (fname_presuffix (ospath_split inf).2 "_bet" none)) fs).length = 1 then
         Except.ok ⟨some (ospath_join (b.cwd.getD (ospath_split inf).1)
              (fname_presuffix (ospath_split inf).2 "_bet" none)),
            (glob (fname_presuffix (ospath_join (b.cwd.getD (ospath_split inf).1)
              (fname_presuffix (ospath_split inf).2 "_bet" none)) "_mask" none)
              fs).head?⟩
       else Except.error (PyErr.assertionError
         (ospath_join (b.cwd.getD (ospath_split inf).1)
           (fname_presuffix (ospath_split inf).2 "_bet" none)))) := by
  simp only [bet_aggregate_outputs, hof, hin]
  simp [pure_bind, except_throw_eq, except_pure_eq, except_ok_bind]

/-- Claim C4: for `Bet` with input `"foo.nii"` and no explicit output,
output aggregation predicts the path `"foo_bet.nii"` (the input base name
with the fixed `_bet` suffix inserted before the extension), and the mask
role is `None` whenever no file matching the `_mask`-suffixed name exists
on disk — the mask's absence is not an error. -/
theorem bet_output_roundtrip (fs : List String)
    (h1 : (glob "foo_bet.nii" fs).length = 1)
    (h2 : glob "foo_bet_mask.nii" fs = []) :
    bet_aggregate_outputs { betDefaults with infile := some "foo.nii" } fs =
      .ok ⟨some "foo_bet.nii", none⟩ := by
  rw [bet_aggregate_spec { betDefaults with infile := some "foo.nii" } fs
    rfl "foo.nii" rfl]
  have e1 : ospath_join
      (({ betDefaults with infile := some "foo.nii" } : BetInputs).cwd.getD
        (ospath_split "foo.nii").1)
      (fname_presuffix (ospath_split "foo.nii").2 "_bet" none) =
      "foo_bet.nii" := by decide
  rw [e1]
  have e2 : fname_presuffix "foo_bet.nii" "_mask" none =
      "foo_bet_mask.nii" := by decide
  rw [e2, if_pos h1, h2]
  rfl

/-- Witness for C4: on the filesystem containing exactly
`foo_bet.nii`. -/
theorem bet_output_roundtrip_witness :
    bet_aggregate_outputs { betDefaults with infile := some "foo.nii" }
        ["foo_bet.nii"] = .ok ⟨some "foo_bet.nii", none⟩ :=
  bet_output_roundtrip ["foo_bet.nii"] (by decide) (by decide)

/-- The C5 scenario inputs: `Fast` on the single input file `a.nii`,
class count unset, no optional flags. -/
def fastScenarioInputs : FastInputs :=
  { fastDefaults with infiles := some (.list [.str "a.nii"]) }

/-- The paths `Fast.aggregate_outputs` predicts in the C5 scenario with
the uncompressed-volume extension: one segmentation map, one
partial-volume map, one mixel-type map, and three per-class
partial-volume files. -/
def fastScenarioPaths : List String :=
  ["a_mixeltype.nii", "a_seg.nii", "a_pveseg.nii",
   "a_pve_0.nii", "a_pve_1.nii", "a_pve_2.nii"]

/-- The outputs `Bunch` predicted in the C5 scenario. -/
def fastScenarioOutputs : FastOutputs :=
  ⟨["a_mixeltype.nii"], ["a_seg.nii"], ["a_pveseg.nii"],
   ["a_pve_0.nii", "a_pve_1.nii", "a_pve_2.nii"], [], [], [], [], []⟩

theorem fastCheckList_eq_forM (fs : List String) (t : String)
    (l : List String) :
    fastCheckList fs t l = l.forM (fun f =>
      if (glob f fs).length = 1 then pure ()
      else throw (.ioMissingOutput f t)) := by
  cases l with
  | nil => rfl
  | cons a as => simp [fastCheckList]

theorem fastCheckList_cases (fs : List String) (t : String)
    (l : List String) :
    (fastCheckList fs t l = Except.ok () ∧
      ∀ p ∈ l, (glob p fs).length = 1) ∨
    (∃ p ∈ l, (glob p fs).length ≠ 1 ∧
      fastCheckList fs t l = Except.error (PyErr.ioMissingOutput p t)) := by
  rw [fastCheckList_eq_forM]
  induction l with
  | nil => exact Or.inl ⟨rfl, by simp⟩
  | cons a as ih =>
    by_cases ha : (glob a fs).length = 1
    · have hstep : List.forM (a :: as) (fun f =>
          if (glob f fs).length = 1 then pure ()
          else throw (.ioMissingOutput f t)) =
          (as.forM (fun f => if (glob f fs).length = 1 then pure ()
            else throw (.ioMissingOutput f t)) : Except PyErr Unit) := by
        show (if (glob a fs).length = 1 then (pure () : Except PyErr Unit)
            else throw (.ioMissingOutput a t)) >>= _ = _
        rw [if_pos ha]
        rfl
      rw [hstep]
      rcases ih with ⟨hok, hall⟩ | ⟨p, hp, hbad, herr⟩
      · exact Or.inl ⟨hok, by
          intro p hp
          rcases List.mem_cons.mp hp with h | h
          · subst h; exact ha
          · exact hall p h⟩
      · exact Or.inr ⟨p, List.mem_cons_of_mem _ hp, hbad, herr⟩
    · refine Or.inr ⟨a, List.mem_cons_self _ _, ha, ?_⟩
      show (if (glob a fs).length = 1 then (pure () : Except PyErr Unit)
          else throw (.ioMissingOutput a t)) >>= _ = _
      rw [if_neg ha]
      rfl

theorem fastCheckList_ok (fs : List String) (t : String) (l : List String)
    (h : ∀ p ∈ l, (glob p fs).length = 1) :
    fastCheckList fs t l = Except.ok () := by
  rcases fastCheckList_cases fs t l with ⟨hok, _⟩ | ⟨p, hp, hbad, _⟩
  · exact hok
  · exact absurd (h p hp) hbad

/-- Claim C5: for `Fast` on the single input `a.nii` with class count
unset (defaulting to 3) and no optional flags, aggregation predicts
exactly one segmentation map, one partial-volume map, one mixel-type map
and three per-class partial-volume files (`fastScenarioOutputs`); when
every predicted path matches exactly one file the call succeeds with
those roles, and when any predicted path does not match exactly one file
it fails with a missing-output `IOError` naming a violated path and its
role. -/
theorem fast_scenario (fs : List String) :
    ((∀ p ∈ fastScenarioPaths, (glob p fs).length = 1) →
      fast_aggregate_outputs fastScenarioInputs "nii" fs =
        .ok fastScenarioOutputs) ∧
    ((∃ p ∈ fastScenarioPaths, (glob p fs).length ≠ 1) →
      ∃ p ∈ fastScenarioPaths, (glob p fs).length ≠ 1 ∧
        ∃ t, fast_aggregate_outputs fastScenarioInputs "nii" fs =
          .error (.ioMissingOutput p t)) := by
  have key : fast_aggregate_outputs fastScenarioInputs "nii" fs =
      (fastCheckList fs "mixeltype" ["a_mixeltype.nii"] >>= fun _ =>
       fastCheckList fs "seg" ["a_seg.nii"] >>= fun _ =>
       fastCheckList fs "partial_volume_map" ["a_pveseg.nii"] >>= fun _ =>
       fastCheckList fs "partial_volume_files"
         ["a_pve_0.nii", "a_pve_1.nii", "a_pve_2.nii"] >>= fun _ =>
       fastCheckList fs "tissue_class_map" [] >>= fun _ =>
       fastCheckList fs "tissue_class_files" [] >>= fun _ =>
       fastCheckList fs "bias_corrected" [] >>= fun _ =>
       fastCheckList fs "bias_field" [] >>= fun _ =>
       fastCheckList fs "prob_maps" [] >>= fun _ =>
       Except.ok fastScenarioOutputs) := rfl
  have hnil : ∀ t, fastCheckList fs t [] = Except.ok () := fun t => rfl
  constructor
  · intro hall
    rw [key, fastCheckList_ok fs "mixeltype" _ (by
        intro p hp; simp at hp; subst hp
        exact hall _ (by simp [fastScenarioPaths])),
      fastCheckList_ok fs "seg" _ (by
        intro p hp; simp at hp; subst hp
        exact hall _ (by simp [fastScenarioPaths])),
      fastCheckList_ok fs "partial_volume_map" _ (by
        intro p hp; simp at hp; subst hp
        exact hall _ (by simp [fastScenarioPaths])),
      fastCheckList_ok fs "partial_volume_files" _ (by
        intro p hp; simp at hp
        rcases hp with h | h | h <;> subst h <;>
          exact hall _ (by simp [fastScenarioPaths]))]
    rfl
  · intro hex
    rw [key]
    rcases fastCheckList_cases fs "mixeltype" ["a_mixeltype.nii"] with
      ⟨h1, h1all⟩ | ⟨p, hp, hbad, herr⟩
    · rcases fastCheckList_cases fs "seg" ["a_seg.nii"] with
        ⟨h2, h2all⟩ | ⟨p, hp, hbad, herr⟩
      · rcases fastCheckList_cases fs "partial_volume_map" ["a_pveseg.nii"] with
          ⟨h3, h3all⟩ | ⟨p, hp, hbad, herr⟩
        · rcases fastCheckList_cases fs "partial_volume_files"
              ["a_pve_0.nii", "a_pve_1.nii", "a_pve_2.nii"] with
            ⟨h4, h4all⟩ | ⟨p, hp, hbad, herr⟩
          · exfalso
            rcases hex with ⟨p, hp, hbad⟩
            simp [fastScenarioPaths] at hp
            rcases hp with h | h | h | h | h | h <;> subst h
            · exact hbad (h1all _ (by simp))
            · exact hbad (h2all _ (by simp))
            · exact hbad (h3all _ (by simp))
            · exact hbad (h4all _ (by simp))
            · exact hbad (h4all _ (by simp))
            · exact hbad (h4all _ (by simp))
          · refine ⟨p, ?_, hbad, "partial_volume_files", ?_⟩
            · simp at hp
              rcases hp with h | h | h <;> subst h <;> simp [fastScenarioPaths]
            · rw [h1, h2, h3, herr]; rfl
        · refine ⟨p, ?_, hbad, "partial_volume_map", ?_⟩
          · simp at hp; subst hp; simp [fastScenarioPaths]
          · rw [h1, h2, herr]; rfl
      · refine ⟨p, ?_, hbad, "seg", ?_⟩
        · simp at hp; subst hp; simp [fastScenarioPaths]
        · rw [h1, herr]; rfl
    · refine ⟨p, ?_, hbad, "mixeltype", ?_⟩
      · simp at hp; subst hp; simp [fastScenarioPaths]
      · rw [herr]; rfl

/-- Witness for C5: on the filesystem holding exactly the six predicted
paths the call succeeds with the predicted roles, and on the empty
filesystem it fails naming a predicted path and its role. -/
theorem fast_scenario_witness :
    fast_aggregate_outputs fastScenarioInputs "nii" fastScenarioPaths =
      .ok fastScenarioOutputs ∧
    ∃ p ∈ fastScenarioPaths, (glob p []).length ≠ 1 ∧
      ∃ t, fast_aggregate_outputs fastScenarioInputs "nii" [] =
        .error (.ioMissingOutput p t) :=
  ⟨(fast_scenario fastScenarioPaths).1 (by decide),
   (fast_scenario []).2 ⟨"a_seg.nii", by decide, by decide⟩⟩

theorem except_map_ok {ε α β : Type} (f : α → β) (a : α) :
    (f <$> (Except.ok a : Except ε α)) = Except.ok (f a) := rfl

theorem except_map_error {ε α β : Type} (f : α → β) (e : ε) :
    (f <$> (Except.error e : Except ε α)) = Except.error e := rfl

theorem glob_eq_nil_iff (p : String) (fs : List String) :
    glob p fs = [] ↔ p ∉ fs := by
  rw [glob, List.filter_eq_nil_iff]
  constructor
  · intro h hp
    have := h p hp
    simp at this
  · intro hp a ha
    simp only [decide_eq_true_eq]
    intro he
    exact hp (he ▸ ha)

theorem glob_ne_nil_iff (p : String) (fs : List String) :
    glob p fs ≠ [] ↔ p ∈ fs := by
  rw [ne_eq, glob_eq_nil_iff, not_not]

/-- The C6 counterexample inputs: an apply-transform configuration that
also carries an `outmatrix` path. -/
def applyxfmCexInputs : FlirtInputs :=
  { flirtDefaults with
    infile := some "s.nii"
    reference := some "t.nii"
    inmatrix := some "x.mat"
    outfile := some "o.nii"
    outmatrix := some "m.mat" }

/-- Counterexample to claim C6 as stated: after a successful
`Flirt.applyxfm` run with an `outmatrix` path supplied, the
output-transform-matrix role IS populated (predicted) in the aggregated
outputs — here with `m.mat`, which does not even exist on the
filesystem — although it is not verified.  The claim asserts the role is
"not predicted or verified". -/
theorem applyxfm_outmatrix_echoed_cex :
    flirt_applyxfm applyxfmCexInputs
      none none none none none (fun _ => 0) ["o.nii"] =
      .ok (0, some ⟨some "o.nii", some "m.mat"⟩) ∧
    "m.mat" ∉ ["o.nii"] :=
  ⟨rfl, by decide⟩

/-- Claim C6 (amended): for `Flirt` run in apply-transform mode, the
output-transform-matrix role is NOT VERIFIED after a successful run (its
existence is never checked; if an output-matrix path was supplied it is
still echoed into the result), while the output-volume role is still
verified — the run aggregates successfully exactly when the given output
path exists on disk, irrespective of the outmatrix. -/
theorem applyxfm_amended (f : FlirtInputs) (fs : List String) (po : String)
    (hin : truthyS f.infile = true) (href : truthyS f.reference = true)
    (hmat : truthyS f.inmatrix = true)
    (hout : f.outfile = some po) (hpo : po ≠ "") :
    ((∃ o, flirt_applyxfm f none none none none none (fun _ => 0) fs =
        .ok (0, some o)) ↔ po ∈ fs) ∧
    (∀ rc o, flirt_applyxfm f none none none none none (fun _ => 0) fs =
        .ok (rc, some o) →
      o.outfile = some po ∧
      o.outmatrix = (if truthyS f.outmatrix then f.outmatrix else none)) := by
  have hpot : truthyS (some po) = true := by
    have hne : po.isEmpty = false := by
      by_contra h
      rw [Bool.not_eq_false] at h
      exact hpo ((String.isEmpty_iff po).mp h)
    simp [truthyS, hne]
  have key : flirt_applyxfm f none none none none none (fun _ => 0) fs =
      (if (glob po fs).isEmpty then Except.error (.ioNotGenerated po)
       else Except.ok (0, some ⟨some po,
         if truthyS f.outmatrix then f.outmatrix else none⟩)) := by
    simp only [flirt_applyxfm, truthyS_none, hin, href, hmat, Bool.not_true,
      Bool.false_eq_true, if_false, ite_false]
    simp only [flirt_aggregate_outputs, hout, hpot, globOpt, except_ok_bind,
      except_throw_eq, except_pure_eq]
    by_cases hglob : (glob po fs).isEmpty
    · have hnil : glob po fs = [] := List.isEmpty_iff.mp hglob
      simp [hglob, hnil, except_ok_bind, except_error_bind, except_throw_eq,
        except_pure_eq, except_map_error, except_map_ok]
    · have hnil : ¬ glob po fs = [] := by
        simpa [List.isEmpty_iff] using hglob
      simp [hglob, hnil, except_ok_bind, except_throw_eq, except_pure_eq,
        except_map_error, except_map_ok]
  constructor
  · constructor
    · intro ⟨o, ho⟩
      rw [key] at ho
      by_cases hglob : (glob po fs).isEmpty
      · rw [if_pos hglob] at ho
        exact absurd ho (by simp)
      · exact (glob_ne_nil_iff po fs).mp (by
          intro hnil
          exact hglob (by rw [hnil]; rfl))
    · intro hmem
      refine ⟨⟨some po, if truthyS f.outmatrix then f.outmatrix else none⟩, ?_⟩
      rw [key, if_neg ?_]
      intro hglob
      exact absurd ((glob_ne_nil_iff po fs).mpr hmem)
        (by simpa [List.isEmpty_iff] using hglob)
  · intro rc o ho
    rw [key] at ho
    by_cases hglob : (glob po fs).isEmpty
    · rw [if_pos hglob] at ho
      exact absurd ho (by simp)
    · rw [if_neg hglob] at ho
      simp only [Except.ok.injEq, Prod.mk.injEq, Option.some.injEq] at ho
      obtain ⟨-, h2⟩ := ho
      rw [← h2]
      exact ⟨rfl, rfl⟩

/-- Witness for the amended C6 at a concrete input: the run verifies the
given output volume (success iff it is on disk) and echoes the supplied
output matrix without verification. -/
theorem applyxfm_amended_witness :
    ((∃ o, flirt_applyxfm applyxfmCexInputs none none none none none
        (fun _ => 0) ["o.nii"] = .ok (0, some o)) ↔ "o.nii" ∈ ["o.nii"]) ∧
    (∀ rc o, flirt_applyxfm applyxfmCexInputs none none none none none
        (fun _ => 0) ["o.nii"] = .ok (rc, some o) →
      o.outfile = some "o.nii" ∧
      o.outmatrix = (if truthyS applyxfmCexInputs.outmatrix then
        applyxfmCexInputs.outmatrix else none)) :=
  applyxfm_amended applyxfmCexInputs ["o.nii"] "o.nii"
    (by decide) (by decide) (by decide) rfl (by decide)

theorem lookup_assocSet_self (om : List (String × String)) (k v : String)
    (h : (om.lookup k).isSome = true) :
    (assocSet om k v).lookup k = some v := by
  induction om with
  | nil => simp [List.lookup] at h
  | cons p t ih =>
    obtain ⟨k', v'⟩ := p
    by_cases hk : k = k'
    · subst hk
      show List.lookup k
        ((if k = k then (k, v) else (k, v')) :: assocSet t k v) = some v
      rw [if_pos rfl, List.lookup]
      simp
    · rw [List.lookup] at h
      have hbeq : (k == k') = false := beq_false_of_ne hk
      rw [hbeq] at h
      simp only [assocSet, List.map_cons]
      rw [if_neg (fun e => hk e.symm)]
      rw [List.lookup, hbeq]
      exact ih h

theorem lookup_assocSet_ne (om : List (String × String)) (k k' v : String)
    (h : k ≠ k') :
    (assocSet om k' v).lookup k = om.lookup k := by
  induction om with
  | nil => rfl
  | cons p t ih =>
    obtain ⟨k0, v0⟩ := p
    simp only [assocSet, List.map_cons]
    by_cases hk0 : k0 = k'
    · subst hk0
      rw [if_pos rfl, List.lookup, List.lookup, beq_false_of_ne h]
      exact ih
    · rw [if_neg hk0, List.lookup, List.lookup]
      by_cases hkk : k = k0
      · subst hkk
        simp
      · rw [beq_false_of_ne hkk]
        exact ih

theorem updStep_lookup_ne (f : FnirtInputs) (om : List (String × String))
    (it k : String) (h : k ≠ it) :
    (updStep f om it).lookup k = om.lookup k := by
  rw [updStep]
  cases hg : fnirtGet f it with
  | none => rfl
  | some v =>
    by_cases ht : pyTruthy v
    · simp only [ht, if_true]
      cases hl : om.lookup it with
      | none => rfl
      | some fmt => exact lookup_assocSet_ne om k it _ h
    · simp [ht]

theorem foldl_updStep_lookup_ne (f : FnirtInputs) (items : List String)
    (om : List (String × String)) (k : String) (h : k ∉ items) :
    (items.foldl (updStep f) om).lookup k = om.lookup k := by
  induction items generalizing om with
  | nil => rfl
  | cons it rest ih =>
    rw [List.foldl_cons]
    have hne : k ≠ it := fun e => h (e ▸ List.mem_cons_self _ _)
    have hrest : k ∉ rest := fun m => h (List.mem_cons_of_mem _ m)
    rw [ih _ hrest, updStep_lookup_ne f om it k hne]

/-- The template rewritten by `Fnirt.update_optmap` for a truthy value
under a variable-arity item. -/
theorem update_optmap_lookup (f : FnirtInputs) (l1 l2 : List String)
    (item : String) (hsplit : fnirtVarItems = l1 ++ item :: l2)
    (h1 : item ∉ l1) (h2 : item ∉ l2)
    (v : PyVal) (hg : fnirtGet f item = some v) (ht : pyTruthy v = true)
    (fmt : String) (hfmt : fnirt_opt_map.lookup item = some fmt) :
    (fnirt_update_optmap fnirt_opt_map f).lookup item =
      some (update_one_opt fmt v) := by
  rw [fnirt_update_optmap, hsplit, List.foldl_append, List.foldl_cons]
  rw [foldl_updStep_lookup_ne f l2 _ item h2]
  have hmid : (l1.foldl (updStep f) fnirt_opt_map).lookup item = some fmt := by
    rw [foldl_updStep_lookup_ne f l1 _ item h1]
    exact hfmt
  rw [updStep, hg]
  simp only [ht, if_true]
  rw [hmid]
  exact lookup_assocSet_self _ _ _ (by rw [hmid]; rfl)

/-- `Fnirt.update_optmap` leaves an item with a falsy value untouched. -/
theorem update_optmap_lookup_falsy (f : FnirtInputs) (l1 l2 : List String)
    (item : String) (hsplit : fnirtVarItems = l1 ++ item :: l2)
    (h1 : item ∉ l1) (h2 : item ∉ l2)
    (v : PyVal) (hg : fnirtGet f item = some v) (ht : pyTruthy v = false) :
    (fnirt_update_optmap fnirt_opt_map f).lookup item =
      fnirt_opt_map.lookup item := by
  rw [fnirt_update_optmap, hsplit, List.foldl_append, List.foldl_cons]
  rw [foldl_updStep_lookup_ne f l2 _ item h2]
  rw [updStep, hg]
  simp only [ht, if_false, Bool.false_eq_true]
  exact foldl_updStep_lookup_ne f l1 _ item h1

theorem strRepeat_toList (s : String) (n : Nat) :
    (strRepeat s n).toList = (List.replicate n s.toList).flatten := by
  induction n with
  | zero => rfl
  | succ m ih =>
    show (s ++ strRepeat s m).data = _
    rw [String.data_append]
    show s.data ++ (strRepeat s m).toList = _
    rw [ih, List.replicate_succ, List.flatten_cons]
    rfl

theorem tokenizeFmt_cons_ne (c : Char) (hc : c ≠ '%') (l : List Char) :
    tokenizeFmt (c :: l) = (tokenizeFmt l).map (fun t => Sum.inl c :: t) := by
  rw [tokenizeFmt.eq_def]
  split
  · simp_all
  · rename_i heq
    injection heq with h1 h2
    exact absurd h1 hc
  · rename_i heq
    injection heq with h1 h2
    exact absurd h1 hc
  · rename_i heq
    injection heq with h1 h2
    exact absurd h1 hc
  · rename_i heq
    injection heq with h1 h2
    exact absurd h1 hc
  · rename_i heq
    injection heq with h1 h2
    exact absurd h1 hc
  · rename_i heq
    injection heq with h1 h2
    subst h2
    subst h1
    rfl

theorem tokenizeFmt_append_lit (cs : List Char) (hcs : '%' ∉ cs)
    (l : List Char) :
    tokenizeFmt (cs ++ l) =
      (tokenizeFmt l).map (fun t => cs.map Sum.inl ++ t) := by
  induction cs with
  | nil =>
    simp only [List.nil_append, List.map_nil]
    cases tokenizeFmt l <;> simp
  | cons c rest ih =>
    have hc : c ≠ '%' := fun e => hcs (by simp [e])
    have hrest : '%' ∉ rest := fun m => hcs (List.mem_cons_of_mem _ m)
    rw [List.cons_append, tokenizeFmt_cons_ne c hc, ih hrest]
    cases tokenizeFmt l <;> simp

theorem tokenizeFmt_rep (seg : List Char) (cv : Conv)
    (hseg : ∀ l, tokenizeFmt (seg ++ l) =
      (tokenizeFmt l).map (fun t => Sum.inl ' ' :: Sum.inr cv :: t))
    (n : Nat) :
    tokenizeFmt ((List.replicate n seg).flatten) =
      some ((List.replicate n [Sum.inl ' ', Sum.inr cv]).flatten) := by
  induction n with
  | zero => rfl
  | succ m ih =>
    rw [List.replicate_succ, List.flatten_cons, hseg, ih,
        List.replicate_succ, List.flatten_cons]
    rfl

theorem convCount_append (A B : List (Sum Char Conv)) :
    convCount (A ++ B) = convCount A + convCount B := by
  simp [convCount, List.countP_append]

theorem convCount_map_inl (cs : List Char) :
    convCount (cs.map Sum.inl) = 0 := by
  simp [convCount, List.countP_map]

theorem convCount_rep (cv : Conv) (n : Nat) :
    convCount ((List.replicate n [Sum.inl ' ', Sum.inr cv]).flatten) = n := by
  induction n with
  | zero => rfl
  | succ m ih =>
    rw [List.replicate_succ, List.flatten_cons, convCount_append, ih]
    have h2 : convCount [Sum.inl ' ', Sum.inr cv] = 1 := rfl
    omega

/-- The tokenization of a regenerated variable-arity template: a
`%`-free head followed by `n` copies of a one-conversion segment. -/
theorem tokenize_head_rep (head : String) (hhead : '%' ∉ head.toList)
    (seg : String) (cv : Conv)
    (hseg : ∀ l, tokenizeFmt (seg.toList ++ l) =
      (tokenizeFmt l).map (fun t => Sum.inl ' ' :: Sum.inr cv :: t))
    (n : Nat) :
    tokenizeFmt (head ++ strRepeat seg n).toList =
      some (head.toList.map Sum.inl ++
        (List.replicate n [Sum.inl ' ', Sum.inr cv]).flatten) := by
  have hdata : (head ++ strRepeat seg n).toList =
      head.toList ++ (strRepeat seg n).toList := String.data_append ..
  rw [hdata, strRepeat_toList]
  rw [tokenizeFmt_append_lit head.toList hhead, tokenizeFmt_rep seg.toList cv
    (fun l => hseg l) n]
  rfl

theorem numConvs_head_rep (head : String) (hhead : '%' ∉ head.toList)
    (seg : String) (cv : Conv)
    (hseg : ∀ l, tokenizeFmt (seg.toList ++ l) =
      (tokenizeFmt l).map (fun t => Sum.inl ' ' :: Sum.inr cv :: t))
    (n : Nat) :
    numConvs (head ++ strRepeat seg n) = n := by
  rw [numConvs, tokenize_head_rep head hhead seg cv hseg n]
  show convCount (head.toList.map Sum.inl ++
    (List.replicate n [Sum.inl ' ', Sum.inr cv]).flatten) = n
  rw [convCount_append, convCount_map_inl, convCount_rep]
  exact Nat.zero_add n

theorem hasPercent_head_rep (head seg : String) (hseg : '%' ∈ seg.toList)
    (n : Nat) (hn : n ≠ 0) :
    hasPercent (head ++ strRepeat seg n) = true := by
  cases n with
  | zero => exact absurd rfl hn
  | succ m =>
    rw [hasPercent]
    have : '%' ∈ (head ++ strRepeat seg (m + 1)).toList := by
      have h1 : (head ++ strRepeat seg (m + 1)).toList =
          head.toList ++ (seg ++ strRepeat seg m).toList :=
        String.data_append ..
      rw [h1]
      refine List.mem_append_right _ ?_
      have h2 : (seg ++ strRepeat seg m).toList =
          seg.toList ++ (strRepeat seg m).toList := String.data_append ..
      rw [h2]
      exact List.mem_append_left _ hseg
    exact List.elem_iff.mpr this

/-- The regeneration behaviour of `Fnirt.update_optmap` for one
variable-arity item whose schema template is `head ++ " " ++ conv`:
a nonempty numeric sequence of length `n` rewrites the template to
`head` followed by `n` copies of the conversion and the engine then
emits a single token from it; a scalar leaves a single-placeholder
template in place. -/
theorem fnirt_item_regen (f : FnirtInputs) (item : String)
    (l1 l2 : List String) (hsplit : fnirtVarItems = l1 ++ item :: l2)
    (h1 : item ∉ l1) (h2 : item ∉ l2)
    (head conv : String) (cv : Conv)
    (hfmt : fnirt_opt_map.lookup item = some (head ++ " " ++ conv))
    (hws : pySplitWS (head ++ " " ++ conv) = [head, conv])
    (hhead : '%' ∉ head.toList)
    (hseg : ∀ l, tokenizeFmt ((" " ++ conv).toList ++ l) =
      (tokenizeFmt l).map (fun t => Sum.inl ' ' :: Sum.inr cv :: t))
    (hpc : '%' ∈ (" " ++ conv).toList)
    (hone : numConvs (head ++ " " ++ conv) = 1) :
    (∀ ns : List Int, ns ≠ [] →
      fnirtGet f item = some (PyVal.list (ns.map PyVal.int)) →
      ∃ fmt fmt', fnirt_opt_map.lookup item = some fmt ∧
        (fnirt_update_optmap fnirt_opt_map f).lookup item = some fmt' ∧
        fmt' = (pySplitWS fmt).headD "" ++
          strRepeat (" " ++ ((pySplitWS fmt).drop 1).headD "") ns.length ∧
        numConvs fmt = 1 ∧ numConvs fmt' = ns.length ∧
        ∃ tok, pyFormat fmt' (ns.map PyVal.int) = some tok ∧
          formatOne (fnirt_update_optmap fnirt_opt_map f) item
            (PyVal.list (ns.map PyVal.int)) = ([tok], [])) ∧
    (∀ k : Int, fnirtGet f item = some (PyVal.int k) →
      ∃ fmt, fnirt_opt_map.lookup item = some fmt ∧
        (fnirt_update_optmap fnirt_opt_map f).lookup item = some fmt ∧
        numConvs fmt = 1) := by
  constructor
  · intro ns hns hg
    have ht : pyTruthy (PyVal.list (ns.map PyVal.int)) = true := by
      cases ns with
      | nil => exact absurd rfl hns
      | cons a t => rfl
    have hlen0 : ns.length ≠ 0 := by
      cases ns with
      | nil => exact absurd rfl hns
      | cons a t => simp
    have hlk := update_optmap_lookup f l1 l2 item hsplit h1 h2 _ hg ht _ hfmt
    have hupd : update_one_opt (head ++ " " ++ conv)
        (PyVal.list (ns.map PyVal.int)) =
        head ++ strRepeat (" " ++ conv) ns.length := by
      simp only [update_one_opt, hws]
      simp
    rw [hupd] at hlk
    have hnum : numConvs (head ++ strRepeat (" " ++ conv) ns.length) =
        ns.length := numConvs_head_rep head hhead (" " ++ conv) cv hseg _
    have hperc : hasPercent (head ++ strRepeat (" " ++ conv) ns.length) =
        true := hasPercent_head_rep head (" " ++ conv) hpc _ hlen0
    have htok : (tokenizeFmt
        ((head ++ strRepeat (" " ++ conv) ns.length)).toList).isSome = true := by
      rw [tokenize_head_rep head hhead (" " ++ conv) cv hseg]
      rfl
    obtain ⟨tok, hpf, hfo⟩ := formatOne_list_ok
      (fnirt_update_optmap fnirt_opt_map f) item _ hlk hperc htok
      (ns.map PyVal.int) (by rw [List.length_map, hnum])
      (by
        intro v hv
        obtain ⟨n, -, rfl⟩ := List.mem_map.mp hv
        exact ⟨n, rfl⟩)
    refine ⟨head ++ " " ++ conv, head ++ strRepeat (" " ++ conv) ns.length,
      hfmt, hlk, ?_, hone, hnum, tok, hpf, hfo⟩
    rw [hws]
    rfl
  · intro k hg
    by_cases hk : k = 0
    · subst hk
      have ht : pyTruthy (PyVal.int 0) = false := rfl
      have hlk := update_optmap_lookup_falsy f l1 l2 item hsplit h1 h2 _ hg ht
      refine ⟨head ++ " " ++ conv, hfmt, ?_, hone⟩
      rw [hlk, hfmt]
    · have ht : pyTruthy (PyVal.int k) = true := by
        simp [pyTruthy, hk]
      have hlk := update_optmap_lookup f l1 l2 item hsplit h1 h2 _ hg ht _ hfmt
      have hupd : update_one_opt (head ++ " " ++ conv) (PyVal.int k) =
          head ++ " " ++ conv := by
        simp only [update_one_opt, hws]
        simp [String.append_assoc]
      rw [hupd] at hlk
      exact ⟨head ++ " " ++ conv, hfmt, hlk, hone⟩

theorem tokenizeFmt_seg_d (l : List Char) :
    tokenizeFmt ((" " ++ "%d").toList ++ l) =
      (tokenizeFmt l).map (fun t => Sum.inl ' ' :: Sum.inr Conv.cd :: t) := by
  have h : ((" " ++ "%d").toList ++ l) = ' ' :: '%' :: 'd' :: l := by
    rw [show (" " ++ "%d").toList = [' ', '%', 'd'] from by decide]
    rfl
  rw [h,
    show tokenizeFmt (' ' :: '%' :: 'd' :: l) =
      (tokenizeFmt ('%' :: 'd' :: l)).map (fun t => Sum.inl ' ' :: t) from rfl,
    show tokenizeFmt ('%' :: 'd' :: l) =
      (tokenizeFmt l).map (fun t => Sum.inr Conv.cd :: t) from rfl]
  cases tokenizeFmt l <;> rfl

theorem tokenizeFmt_seg_f (l : List Char) :
    tokenizeFmt ((" " ++ "%f").toList ++ l) =
      (tokenizeFmt l).map
        (fun t => Sum.inl ' ' :: Sum.inr (Conv.cf 6) :: t) := by
  have h : ((" " ++ "%f").toList ++ l) = ' ' :: '%' :: 'f' :: l := by
    rw [show (" " ++ "%f").toList = [' ', '%', 'f'] from by decide]
    rfl
  rw [h,
    show tokenizeFmt (' ' :: '%' :: 'f' :: l) =
      (tokenizeFmt ('%' :: 'f' :: l)).map (fun t => Sum.inl ' ' :: t) from rfl,
    show tokenizeFmt ('%' :: 'f' :: l) =
      (tokenizeFmt l).map (fun t => Sum.inr (Conv.cf 6) :: t) from rfl]
  cases tokenizeFmt l <;> rfl

/-- The C7 counterexample inputs: `sub_sampling` set to the empty
sequence. -/
def fnirtEmptySeqInputs : FnirtInputs :=
  { fnirtDefaults with sub_sampling := some (PyVal.list []) }

/-- Counterexample to claim C7 as stated: for the variable-arity option
`sub_sampling` supplied with a sequence of length `n = 0`, building the
command line does NOT regenerate the template to contain 0 placeholders —
the empty list is falsy, `update_optmap` skips it, the template keeps its
single placeholder, and generic formatting then emits no token at all
(one reported violation) instead of a token carrying all 0 values. -/
theorem update_optmap_empty_seq_cex :
    fnirtGet fnirtEmptySeqInputs "sub_sampling" = some (PyVal.list []) ∧
    (fnirt_update_optmap fnirt_opt_map fnirtEmptySeqInputs).lookup
      "sub_sampling" = some "--subsamp %d" ∧
    numConvs "--subsamp %d" = 1 ∧
    formatOne (fnirt_update_optmap fnirt_opt_map fnirtEmptySeqInputs)
      "sub_sampling" (PyVal.list []) = ([], [Violation.typeErr "sub_sampling"]) :=
  ⟨rfl, by decide, by decide, rfl⟩

/-- Claim C7 (amended): for each variable-arity numeric option of
`Fnirt`, a supplied NONEMPTY numeric sequence of length `n` makes
`update_optmap` regenerate that option's format template to exactly `n`
copies of the original conversion (`n` placeholders), after which the
engine emits one token holding all `n` values; a scalar value leaves a
single-placeholder template (regenerated-identical when truthy, untouched
when falsy). -/
theorem fnirt_variable_arity (f : FnirtInputs) (item : String)
    (hitem : item ∈ fnirtVarItems) :
    (∀ ns : List Int, ns ≠ [] →
      fnirtGet f item = some (PyVal.list (ns.map PyVal.int)) →
      ∃ fmt fmt', fnirt_opt_map.lookup item = some fmt ∧
        (fnirt_update_optmap fnirt_opt_map f).lookup item = some fmt' ∧
        fmt' = (pySplitWS fmt).headD "" ++
          strRepeat (" " ++ ((pySplitWS fmt).drop 1).headD "") ns.length ∧
        numConvs fmt = 1 ∧ numConvs fmt' = ns.length ∧
        ∃ tok, pyFormat fmt' (ns.map PyVal.int) = some tok ∧
          formatOne (fnirt_update_optmap fnirt_opt_map f) item
            (PyVal.list (ns.map PyVal.int)) = ([tok], [])) ∧
    (∀ k : Int, fnirtGet f item = some (PyVal.int k) →
      ∃ fmt, fnirt_opt_map.lookup item = some fmt ∧
        (fnirt_update_optmap fnirt_opt_map f).lookup item = some fmt ∧
        numConvs fmt = 1) := by
  have hmem : item = "sub_sampling" ∨ item = "max_iter" ∨
      item = "referencefwhm" ∨ item = "imgfwhm" ∨ item = "lambdas" ∨
      item = "estintensity" ∨ item = "applyrefmask" ∨
      item = "applyimgmask" := by
    simpa [fnirtVarItems] using hitem
  rcases hmem with rfl | rfl | rfl | rfl | rfl | rfl | rfl | rfl
  · exact fnirt_item_regen f _ []
      ["max_iter", "referencefwhm", "imgfwhm", "lambdas", "estintensity",
       "applyrefmask", "applyimgmask"] rfl (by decide) (by decide)
      "--subsamp" "%d" Conv.cd (by decide) (by decide) (by decide)
      tokenizeFmt_seg_d (by decide) (by decide)
  · exact fnirt_item_regen f _ ["sub_sampling"]
      ["referencefwhm", "imgfwhm", "lambdas", "estintensity",
       "applyrefmask", "applyimgmask"] rfl (by decide) (by decide)
      "--miter" "%f" (Conv.cf 6) (by decide) (by decide) (by decide)
      tokenizeFmt_seg_f (by decide) (by decide)
  · exact fnirt_item_regen f _ ["sub_sampling", "max_iter"]
      ["imgfwhm", "lambdas", "estintensity", "applyrefmask",
       "applyimgmask"] rfl (by decide) (by decide)
      "--reffwhm" "%f" (Conv.cf 6) (by decide) (by decide) (by decide)
      tokenizeFmt_seg_f (by decide) (by decide)
  · exact fnirt_item_regen f _ ["sub_sampling", "max_iter", "referencefwhm"]
      ["lambdas", "estintensity", "applyrefmask", "applyimgmask"] rfl
      (by decide) (by decide)
      "--infwhm" "%f" (Conv.cf 6) (by decide) (by decide) (by decide)
      tokenizeFmt_seg_f (by decide) (by decide)
  · exact fnirt_item_regen f _
      ["sub_sampling", "max_iter", "referencefwhm", "imgfwhm"]
      ["estintensity", "applyrefmask", "applyimgmask"] rfl
      (by decide) (by decide)
      "--lambda" "%f" (Conv.cf 6) (by decide) (by decide) (by decide)
      tokenizeFmt_seg_f (by decide) (by decide)
  · exact fnirt_item_regen f _
      ["sub_sampling", "max_iter", "referencefwhm", "imgfwhm", "lambdas"]
      ["applyrefmask", "applyimgmask"] rfl (by decide) (by decide)
      "--estint" "%f" (Conv.cf 6) (by decide) (by decide) (by decide)
      tokenizeFmt_seg_f (by decide) (by decide)
  · exact fnirt_item_regen f _
      ["sub_sampling", "max_iter", "referencefwhm", "imgfwhm", "lambdas",
       "estintensity"] ["applyimgmask"] rfl (by decide) (by decide)
      "--applyrefmask" "%f" (Conv.cf 6) (by decide) (by decide) (by decide)
      tokenizeFmt_seg_f (by decide) (by decide)
  · exact fnirt_item_regen f _
      ["sub_sampling", "max_iter", "referencefwhm", "imgfwhm", "lambdas",
       "estintensity", "applyrefmask"] [] rfl (by decide) (by decide)
      "--applyinmask" "%f" (Conv.cf 6) (by decide) (by decide) (by decide)
      tokenizeFmt_seg_f (by decide) (by decide)

/-- The C7 witness inputs: `sub_sampling := [4, 2, 1]`. -/
def fnirtWitnessInputs : FnirtInputs :=
  { fnirtDefaults with
    sub_sampling := some (PyVal.list [PyVal.int 4, PyVal.int 2, PyVal.int 1]) }

/-- Witness for the amended C7 at a concrete input: `sub_sampling`
supplied with `[4, 2, 1]` regenerates a three-placeholder template and
the engine emits one token for it. -/
theorem fnirt_variable_arity_witness :
    ∃ fmt fmt', fnirt_opt_map.lookup "sub_sampling" = some fmt ∧
      (fnirt_update_optmap fnirt_opt_map fnirtWitnessInputs).lookup
        "sub_sampling" = some fmt' ∧
      fmt' = (pySplitWS fmt).headD "" ++
        strRepeat (" " ++ ((pySplitWS fmt).drop 1).headD "")
          ([4, 2, 1] : List Int).length ∧
      numConvs fmt = 1 ∧ numConvs fmt' = ([4, 2, 1] : List Int).length ∧
      ∃ tok, pyFormat fmt' (([4, 2, 1] : List Int).map PyVal.int) =
          some tok ∧
        formatOne (fnirt_update_optmap fnirt_opt_map fnirtWitnessInputs)
          "sub_sampling" (PyVal.list (([4, 2, 1] : List Int).map PyVal.int)) =
          ([tok], []) :=
  (fnirt_variable_arity fnirtWitnessInputs "sub_sampling" (by decide)).1
    [4, 2, 1] (by decide) rfl

/-- Claim C8, evaluated at the failing inputs: `McFlirt.aggregate_outputs`
crashes on every schema input instead of deriving the `_mcf` base name
and predicting outputs — with `outfile` unset it reads the unassigned
local `item` (an `UnboundLocalError`), and with `outfile` set it reads
`out_basename`, which is not a field of the `McFlirt` inputs `Bunch`
(an `AttributeError`). -/
theorem mcflirt_aggregate_crashes (m : McFlirtInputs) (envext : String)
    (fs : List String) :
    (truthyS m.outfile = false →
      mcflirt_aggregate_outputs m envext fs =
        .error (.unboundLocalError "item")) ∧
    (truthyS m.outfile = true →
      mcflirt_aggregate_outputs m envext fs =
        .error (.attributeError "out_basename")) := by
  constructor <;> intro h <;> simp [mcflirt_aggregate_outputs, h]

/-- Witness for C8 at the concrete failing input of the claim's
scenario: `infile := timeseries.nii`, no explicit output. -/
theorem mcflirt_aggregate_crashes_witness :
    mcflirt_aggregate_outputs
        { mcflirtDefaults with infile := some "timeseries.nii" } "nii" [] =
      .error (.unboundLocalError "item") :=
  (mcflirt_aggregate_crashes
    { mcflirtDefaults with infile := some "timeseries.nii" } "nii" []).1 rfl

/-- The C9 failing input: only the warped-image output path is
supplied. -/
def fnirtC9Inputs : FnirtInputs :=
  { fnirtDefaults with outimage := some "warped.nii" }

/-- Claim C9, evaluated at the failing input: with only the warped-image
path supplied, `Fnirt.aggregate_outputs` raises `TypeError` on EVERY
filesystem — including ones where `warped.nii` exists — because its
verification loop also runs `glob(None)` on every unsupplied role,
instead of leaving those roles `None` and failing only for supplied
paths that are missing. -/
theorem fnirt_aggregate_unsupplied_role_crashes (fs : List String) :
    fnirt_aggregate_outputs fnirtC9Inputs fs =
      .error (.typeError "glob: NoneType") := rfl

/-- Truthiness of a nonempty string. -/
theorem truthyS_some_ne (s : String) (hs : s ≠ "") :
    truthyS (some s) = true := by
  have hne : s.isEmpty = false := by
    by_contra h
    rw [Bool.not_eq_false] at h
    exact hs ((String.isEmpty_iff s).mp h)
  simp [truthyS, hne]

theorem string_append_ne_empty_right (a b : String) (hb : b ≠ "") :
    a ++ b ≠ "" := by
  intro h
  have hdata : (a ++ b).data = [] := by rw [h]
  rw [String.data_append] at hdata
  have hb' : b.data = [] := (List.append_eq_nil.mp hdata).2
  exact hb (String.ext hb')

theorem string_append_ne_empty_left (a b : String) (ha : a ≠ "") :
    a ++ b ≠ "" := by
  intro h
  have hdata : (a ++ b).data = [] := by rw [h]
  rw [String.data_append] at hdata
  have ha' : a.data = [] := (List.append_eq_nil.mp hdata).1
  exact ha (String.ext ha')

theorem ospath_join_ne_empty (a b : String) (hb : b ≠ "") :
    ospath_join a b ≠ "" := by
  rw [ospath_join]
  split_ifs with h1 h2
  · exact hb
  · exact string_append_ne_empty_right a b hb
  · exact string_append_ne_empty_right (a ++ "/") b hb

theorem fname_presuffix_ne_empty (fname : String) (np : Option String) :
    fname_presuffix fname "_bet" np ≠ "" := by
  show ospath_join _ ((ospath_splitext (ospath_split fname).2).1 ++ "_bet" ++
    (ospath_splitext (ospath_split fname).2).2) ≠ ""
  exact ospath_join_ne_empty _ _
    (string_append_ne_empty_left _ _
      (string_append_ne_empty_right _ _ (by decide)))

/-- Evaluation of `Bet._parse_inputs` when the input file is set and the
output file is not: the derived `_bet` output name is inserted at
position 1 and written back into the inputs. -/
theorem bet_parse_spec_derive (b : BetInputs) (s : String)
    (hin : b.infile = some s) (hs : s ≠ "")
    (hout : truthyS b.outfile = false) :
    bet_parse_inputs b =
      (pyInsert 1 (fname_presuffix (ospath_split s).2 "_bet"
          (some (b.cwd.getD (ospath_split s).1)))
        (pyInsert 0 s
          (parse_inputs bet_opt_map ["infile", "outfile"] (betPairs b)).1),
       { b with outfile := some (fname_presuffix (ospath_split s).2 "_bet"
          (some (b.cwd.getD (ospath_split s).1))) }) := by
  have hd := fname_presuffix_ne_empty (ospath_split s).2
    (some (b.cwd.getD (ospath_split s).1))
  simp only [bet_parse_inputs, hin, hout, truthyS_some_ne s hs, if_true,
    Bool.false_eq_true, if_false, Option.getD_some,
    truthyS_some_ne _ hd]

/-- Evaluation of `Bet._parse_inputs` when both files are set: no
mutation, input at position 0, output at position 1. -/
theorem bet_parse_spec_set (b : BetInputs) (s d : String)
    (hin : b.infile = some s) (hs : s ≠ "")
    (hout : b.outfile = some d) (hd : d ≠ "") :
    bet_parse_inputs b =
      (pyInsert 1 d (pyInsert 0 s
        (parse_inputs bet_opt_map ["infile", "outfile"] (betPairs b)).1),
       b) := by
  simp only [bet_parse_inputs, hin, hout, truthyS_some_ne s hs,
    truthyS_some_ne d hd, if_true, Option.getD_some]

/-- Claim C10: for `Bet`, when the input file is set and the output file
unset, building the argument vector mutates the `ParameterSet`: it writes
the derived output name (the input base name with the `_bet` suffix,
relocated to `cwd` or the input's directory) into `outfile` and changes
no other field; the mutation persists — a second build on the mutated
inputs produces the same argument vector and leaves the inputs fixed. -/
theorem bet_parse_mutates_outfile (b : BetInputs) (s : String)
    (hin : b.infile = some s) (hs : s ≠ "") (hout : b.outfile = none) :
    (bet_parse_inputs b).2 =
      { b with outfile := some (fname_presuffix (ospath_split s).2 "_bet"
        (some (b.cwd.getD (ospath_split s).1))) } ∧
    bet_parse_inputs ((bet_parse_inputs b).2) =
      ((bet_parse_inputs b).1, (bet_parse_inputs b).2) := by
  have hto : truthyS b.outfile = false := by rw [hout]; rfl
  have h1 := bet_parse_spec_derive b s hin hs hto
  have hdne : fname_presuffix (ospath_split s).2 "_bet"
      (some (b.cwd.getD (ospath_split s).1)) ≠ "" :=
    fname_presuffix_ne_empty _ _
  refine ⟨by rw [h1], ?_⟩
  have hb'in : ({ b with outfile := some (fname_presuffix (ospath_split s).2
      "_bet" (some (b.cwd.getD (ospath_split s).1))) } : BetInputs).infile =
      some s := hin
  have h2 := bet_parse_spec_set
    { b with outfile := some (fname_presuffix (ospath_split s).2 "_bet"
      (some (b.cwd.getD (ospath_split s).1))) } s _ hb'in hs rfl hdne
  have hmid : parse_inputs bet_opt_map ["infile", "outfile"]
      [("outfile", PyVal.str (fname_presuffix (ospath_split s).2 "_bet"
        (some (b.cwd.getD (ospath_split s).1))))] = ([], []) := by
    rw [parse_inputs_singleton]
    rfl
  have hgen : (parse_inputs bet_opt_map ["infile", "outfile"]
      (betPairs { b with outfile := some (fname_presuffix (ospath_split s).2
        "_bet" (some (b.cwd.getD (ospath_split s).1))) })).1 =
      (parse_inputs bet_opt_map ["infile", "outfile"] (betPairs b)).1 := by
    have e1 : betPairs { b with outfile := some (fname_presuffix
        (ospath_split s).2 "_bet" (some (b.cwd.getD (ospath_split s).1))) } =
        (optPair "infile" (b.infile.map PyVal.str) ++
          [("outfile", PyVal.str (fname_presuffix (ospath_split s).2 "_bet"
            (some (b.cwd.getD (ospath_split s).1))))]) ++ betRestPairs b := by
      rw [betPairs]
      rfl
    have e2 : betPairs b =
        (optPair "infile" (b.infile.map PyVal.str) ++ ([] : List (String × PyVal)))
          ++ betRestPairs b := by
      rw [betPairs, hout]
      rfl
    rw [e1, e2]
    simp only [parse_inputs_append, hmid, parse_inputs_nil]
  rw [h1, h2]
  rw [hgen]

/-- The C10 witness inputs: only `infile` set. -/
def betC10Inputs : BetInputs := { betDefaults with infile := some "foo.nii" }

/-- Witness for C10 at a concrete input: building the `Bet` argument
vector writes the derived `_bet` name into `outfile` and a repeated
build is a fixpoint. -/
theorem bet_parse_mutates_outfile_witness :
    (bet_parse_inputs betC10Inputs).2 =
      { betC10Inputs with outfile := some (fname_presuffix
        (ospath_split "foo.nii").2 "_bet"
        (some (betC10Inputs.cwd.getD (ospath_split "foo.nii").1))) } ∧
    bet_parse_inputs ((bet_parse_inputs betC10Inputs).2) =
      ((bet_parse_inputs betC10Inputs).1, (bet_parse_inputs betC10Inputs).2) :=
  bet_parse_mutates_outfile betC10Inputs "foo.nii" rfl (by decide) rfl

end Fsl
